import Mathlib

/-!
# Verification of the videoask_handler transcription pipeline

Shallow embedding of the core of `src/videoask_handler` (media-format
validation, Rev.ai job handling, transcript quality scoring, NLP text
enhancement, webhook/manual routes and the Google-Sheets store) together
with proofs settling the specification claims.

Modelling conventions:
* Python floats are modelled as exact rationals (`ℚ`); all confidence
  arithmetic in the source is on small decimal literals, where the two agree.
* Network calls (`requests`, the Sheets API, the Rev.ai provider) are
  modelled as explicit data passed in: each endpoint is a field of a
  provider/service structure whose value is an `Except` of the transport
  outcome.  Time-varying poll responses are indexed by the poll count.
* Python exceptions are modelled by `Except PyErr`; `dict.get(k, d)`
  becomes `Option.getD`, a bare `d[k]` access becomes a `KeyError` on
  `none`, and list indexing `l[0]` becomes an `IndexError` on `[]`.
* `str.lower`/`islower`/`upper` are modelled with Lean's ASCII
  `Char.toLower`/`isLower`/`toUpper`; all string literals involved in the
  claims are ASCII.
* spaCy (`nlp(text)`, `doc.sents`) is a black box: sentence segmentation
  is a parameter `sents : String → List Sentence`; claims quantify over it.
-/

namespace VideoaskHandler

/-- Python runtime errors that the embedded functions can raise. -/
inductive PyErr where
  | httpError (msg : String)
  | keyError (key : String)
  | indexError
  | zeroDivision
  | typeError (msg : String)
  | revAiError (msg : String)
  deriving Repr, DecidableEq

/-! String helpers (Python semantics) -/

/-- Python `str.strip()`: drop whitespace from both ends. -/
def pyStrip (s : String) : String :=
  ⟨((s.data.dropWhile Char.isWhitespace).reverse.dropWhile Char.isWhitespace).reverse⟩

/-- Python `str.lower()` (ASCII). -/
def pyLower (cs : List Char) : List Char := cs.map Char.toLower

/-- The suffix of `cs` strictly after the last occurrence of `sep`
(`cs` itself if `sep` does not occur): this is `cs.split(sep)[-1]`. -/
def afterLast (sep : Char) (cs : List Char) : List Char :=
  (cs.reverse.takeWhile (fun c => c ≠ sep)).reverse

/-- Render an `Option String` the way a Python f-string renders the value
(`None` for a missing value). -/
def pyShowOpt : Option String → String
  | none => "None"
  | some s => s

/-! Model of `urllib.parse.urlparse(url).path`.

Model of the path component extraction of `urlparse`: strip a scheme
(`scheme:`), a netloc (`//host`), the fragment (from the first `#`) and the
query (from the first `?`). -/

def isSchemeChar (c : Char) : Bool :=
  c.isAlphanum || c = '+' || c = '-' || c = '.'

def urlparse_path (url : String) : String :=
  let cs := url.data
  -- scheme: `foo:` with non-empty scheme of scheme characters
  let cs := match cs.span (fun c => c ≠ ':') with
    | (pre, _ :: rest) =>
        if pre ≠ [] && pre.all isSchemeChar then rest else cs
    | (_, []) => cs
  -- netloc: `//host` runs up to the first of `/`, `?`, `#`
  let cs := match cs with
    | '/' :: '/' :: rest =>
        rest.dropWhile (fun c => c ≠ '/' && c ≠ '?' && c ≠ '#')
    | _ => cs
  -- fragment, then query
  let cs := (cs.takeWhile (fun c => c ≠ '#')).takeWhile (fun c => c ≠ '?')
  ⟨cs⟩

/-! Embedding of `transcription/rev_ai.py`: format validation. -/

/-- `config.SUPPORTED_AUDIO_FORMATS` (a Python `set`; modelled as a list,
used for membership and for the joined message). -/
def SUPPORTED_AUDIO_FORMATS : List String :=
  ["mp3", "mp4", "ogg", "wav", "pcm", "flac", "aac", "m4a", "wma", "aiff"]

/-- `rev_ai.get_file_extension`: `path.split('.')[-1].lower() if '.' in path
else None` on the urlparsed path. -/
def get_file_extension (url : String) : Option String :=
  let path := (urlparse_path url).data
  if '.' ∈ path then some ⟨pyLower (afterLast '.' path)⟩ else none

/-- `rev_ai.validate_media_format`. -/
def validate_media_format (media_url : String) : Bool × String :=
  match get_file_extension media_url with
  | none => (false, "Could not determine file format")
  | some ext =>
    if ext = "" then (false, "Could not determine file format")
    else if ext ∉ SUPPORTED_AUDIO_FORMATS then
      (false, "Unsupported file format: " ++ ext ++ ". Supported formats: " ++
        String.intercalate ", " SUPPORTED_AUDIO_FORMATS)
    else (true, "File format is supported")

/-- Modelled from the spec: "the lowercase file extension of the URL path"
— the extension of the last path segment (the part of the basename after
its last dot), `none` when the basename has no dot.  Stated from the
spec's words for comparison with `validate_media_format`. -/
def spec_path_extension (url : String) : Option String :=
  let path := (urlparse_path url).data
  let base := afterLast '/' path
  if '.' ∈ base then some ⟨pyLower (afterLast '.' base)⟩ else none

/-! Data model of provider JSON (`transcript`, job details). -/

/-- One transcript element (`{"type", "value", "confidence", "ts"}`);
fields are `Option` because the JSON keys may be absent. -/
structure Element where
  etype : Option String
  value : Option String
  confidence : Option ℚ
  ts : Option ℚ
  deriving Repr, DecidableEq

/-- One monologue (`{"elements": [...]}`). -/
structure Monologue where
  elements : Option (List Element)
  deriving Repr, DecidableEq

/-- A transcript (`{"monologues": [...]}`). -/
structure Transcript where
  monologues : Option (List Monologue)
  deriving Repr, DecidableEq

/-- Job-details JSON (`GET /jobs/{id}` and the `POST /jobs` response). -/
structure JobJson where
  id : Option String
  status : Option String
  media_url : Option String
  failure_detail : Option String
  deriving Repr, DecidableEq

/-- The part of `analyze_media_quality`'s result that the quality report
carries (the estimator itself fails soft and is treated as a black box). -/
structure MediaQuality where
  quality_level : String
  warning : Option String
  deriving Repr, DecidableEq

/-! Embedding of `transcription/quality.py`. -/

/-- One entry of `low_confidence_words`. -/
structure LowWord where
  word : String
  confidence : ℚ
  ts : ℚ
  deriving Repr, DecidableEq

/-- The completed-branch quality metrics dictionary. -/
structure CompletedQuality where
  overall_confidence : ℚ
  total_words : Nat
  low_confidence_count : Nat
  low_confidence_words : List LowWord
  quality_rating : String
  warnings : List String
  deriving Repr, DecidableEq

/-- Result of `get_transcript_quality`: either the status-only report for
an incomplete job (status, message, media-quality sub-report and nothing
else — in particular no confidence fields), or the completed metrics. -/
inductive QualityResult where
  | incomplete (status message : String) (media_quality : MediaQuality)
  | completed (q : CompletedQuality)
  deriving Repr, DecidableEq

/-- Accumulator of the element loop in `get_transcript_quality`. -/
structure QAcc where
  total_confidence : ℚ
  total_words : Nat
  low : List LowWord
  deriving Repr, DecidableEq

/-- One step of the element loop (`quality.py` lines 60-71): `element["type"]`
is a bare index (KeyError on absence); `confidence` defaults to `0`;
low-confidence elements record `element["value"]` and `element["ts"]`
(bare indexes). -/
def qualityStep (acc : QAcc) (el : Element) : Except PyErr QAcc :=
  match el.etype with
  | none => .error (.keyError "type")
  | some ty =>
    if ty = "text" then
      let conf := el.confidence.getD 0
      let acc' : QAcc :=
        ⟨acc.total_confidence + conf, acc.total_words + 1, acc.low⟩
      if conf < 0.8 then
        match el.value with
        | none => .error (.keyError "value")
        | some v =>
          match el.ts with
          | none => .error (.keyError "ts")
          | some t => .ok ⟨acc'.total_confidence, acc'.total_words,
              acc'.low ++ [⟨v, conf, t⟩]⟩
      else .ok acc'
    else .ok acc

/-- The media-quality value computed at `quality.py` lines 31-35. -/
def mediaQualityOf (mqFn : String → MediaQuality) :
    Option String → MediaQuality
  | some u => mqFn u
  | none => ⟨"unknown", some "Media URL not found in job details"⟩

/-- `quality.get_transcript_quality`.  The two HTTP responses
(`GET /jobs/{id}` and `GET /jobs/{id}/transcript`) and the media-quality
estimator are passed as data.  Note `quality.py` line 88 divides
`len(low_confidence_words)` by `total_words` without the zero guard that
line 74 has: with no text elements this is Python's `ZeroDivisionError`. -/
def get_transcript_quality (jobResp : Except String JobJson)
    (mqFn : String → MediaQuality)
    (transcriptResp : Except String Transcript) :
    Except PyErr QualityResult :=
  match jobResp with
  | .error m => .error (.httpError m)
  | .ok job =>
    let mq := mediaQualityOf mqFn job.media_url
    match job.status with
    | none => .error (.keyError "status")
    | some st =>
      if st ≠ "completed" then
        .ok (.incomplete st "Transcript not ready yet" mq)
      else
        match transcriptResp with
        | .error m => .error (.httpError m)
        | .ok t =>
          let els := ((t.monologues.getD []).map
            (fun m => m.elements.getD [])).flatten
          match els.foldlM qualityStep ⟨0, 0, []⟩ with
          | .error e => .error e
          | .ok acc =>
            let avg : ℚ :=
              if acc.total_words > 0 then
                acc.total_confidence / acc.total_words
              else 0
            let rating : String :=
              if avg > 0.9 then "good" else if avg > 0.8 then "fair"
              else "poor"
            let w1 : List String :=
              if avg < 0.8 then ["Low overall confidence score"] else []
            if acc.total_words = 0 then .error .zeroDivision
            else
              let w2 : List String :=
                if (acc.low.length : ℚ) / (acc.total_words : ℚ) > 0.1 then
                  ["High number of uncertain words"]
                else []
              .ok (.completed ⟨avg, acc.total_words, acc.low.length,
                acc.low, rating, w1 ++ w2⟩)

/-! Embedding of `transcription/nlp.py`. -/

/-- Decidable equality for `Except` results (used to evaluate concrete
runs of the embedded functions). -/
instance instDecidableEqExcept {ε α : Type} [DecidableEq ε]
    [DecidableEq α] : DecidableEq (Except ε α)
  | .error a, .error b =>
    if h : a = b then .isTrue (by rw [h])
    else .isFalse (fun hc => by cases hc; exact h rfl)
  | .error _, .ok _ => .isFalse (fun hc => by cases hc)
  | .ok _, .error _ => .isFalse (fun hc => by cases hc)
  | .ok a, .ok b =>
    if h : a = b then .isTrue (by rw [h])
    else .isFalse (fun hc => by cases hc; exact h rfl)

/-- A spaCy sentence as `enhance_transcript` consumes it: its text and its
character offset in the input (`sent.start_char`). -/
structure Sentence where
  start_char : Nat
  text : String
  deriving Repr, DecidableEq

/-- The sentence-capitalization loop (`nlp.py` lines 98-109).
`sent.text[0]` raises IndexError on an empty sentence; if the sentence
starts lowercase at offset `0` the accumulator is REPLACED by just that
sentence capitalized (`enhanced_text = sent.text[0].upper() + sent.text[1:]`,
discarding the rest); at a nonzero offset the single character at the
offset is spliced (Python slices clamp out of range). -/
def capLoop : List Sentence → String → Except PyErr String
  | [], acc => .ok acc
  | s :: rest, acc =>
    match s.text.data with
    | [] => .error .indexError
    | c :: cs =>
      if c.isLower then
        if s.start_char = 0 then capLoop rest ⟨c.toUpper :: cs⟩
        else capLoop rest
          ⟨acc.data.take s.start_char ++ c.toUpper ::
            acc.data.drop (s.start_char + 1)⟩
      else capLoop rest acc

/-- The paragraph grouping loop (`nlp.py` lines 120-130): flush the
current group whenever it reaches 3 sentences, keep the remainder. -/
def chunkLoop : List String → List String → List (List String)
  | [], cur => if cur = [] then [] else [cur]
  | s :: rest, cur =>
    let cur' := cur ++ [s]
    if cur'.length ≥ 3 then cur' :: chunkLoop rest []
    else chunkLoop rest cur'

/-- The paragraph regrouping (`nlp.py` lines 118-132): paragraphs are
rebuilt from the ORIGINAL `sent.text.strip()` values and joined by blank
lines, replacing the capitalization-corrected accumulator. -/
def paragraphJoin (sents : List Sentence) : String :=
  String.intercalate "\n\n"
    ((chunkLoop (sents.map (fun s => pyStrip s.text)) []).map
      (String.intercalate " "))

/-- The pure tail of `enhance_transcript` after the capitalization loop:
the missing-terminal-punctuation fix (`nlp.py` lines 112-115) and the
paragraph regrouping for more than 5 sentences (lines 118-132), which
REPLACES the accumulated text by `paragraphJoin sents`. -/
def enhanceFinish (sents : List Sentence) (enhanced : String) :
    String × List String :=
  let lastOk : Bool :=
    match (pyStrip enhanced).data.getLast? with
    | some c => c = '.' || c = '!' || c = '?'
    | none => false
  let step2 : String × List String :=
    if lastOk then (enhanced, [])
    else (pyStrip enhanced ++ ".",
      ["Added missing sentence-ending punctuation"])
  if 5 < sents.length then (paragraphJoin sents, step2.2)
  else step2

/-- `nlp.enhance_transcript`: the sentence segmentation `F` models
`nlp(text).sents`. -/
def enhance_transcript (F : String → List Sentence) (text : String) :
    Except PyErr (String × List String) :=
  let sents := F text
  match capLoop sents text with
  | .error e => .error e
  | .ok enhanced => .ok (enhanceFinish sents enhanced)

/-- The result of spaCy content analysis (`analyze_transcript_content`),
whose tokenization internals are external; only the fields that
`calculate_quality_score` consumes are modelled. -/
structure ContentAnalysis where
  sentence_count : Nat
  word_count : Nat
  avg_words_per_sentence : ℚ
  quality_issues : List String
  deriving Repr, DecidableEq

/-- `nlp.calculate_quality_score`. -/
def calculate_quality_score (a : ContentAnalysis) : ℚ :=
  let s1 : ℚ := 1 - (a.quality_issues.length : ℚ) * 0.1
  let s2 : ℚ :=
    if a.word_count < 20 then s1 - 0.2
    else if a.word_count < 50 then s1 - 0.1 else s1
  let s3 : ℚ :=
    if a.sentence_count = 0 then s2 - 0.3
    else if a.avg_words_per_sentence > 40 then s2 - 0.2 else s2
  max 0 (min 1 s3)

/-- The black-box NLP toolkit: sentence segmentation for enhancement and
content analysis for scoring. -/
structure Nlp where
  sents : String → List Sentence
  content : String → ContentAnalysis

/-- `nlp.get_transcript_analysis` result bundle. -/
structure AnalysisOut where
  enhanced_text : String
  original_text : String
  enhancement_warnings : List String
  content_analysis : ContentAnalysis
  quality_score : ℚ
  deriving Repr, DecidableEq

/-- `nlp.get_transcript_analysis`. -/
def get_transcript_analysis (N : Nlp) (text : String) :
    Except PyErr AnalysisOut :=
  match enhance_transcript N.sents text with
  | .error e => .error e
  | .ok (et, ws) =>
    .ok ⟨et, text, ws, N.content text,
      calculate_quality_score (N.content text)⟩

/-! Embedding of `transcription/rev_ai.py`: job handling.  The provider
is explicit data: `submit` is the `POST /jobs` outcome, `jobStatus k` the
outcome of the `k`-th `GET /jobs/{id}` poll, `transcript` the
`GET /jobs/{id}/transcript` outcome; transport errors are the `.error`
strings.  Time is idealized: polls are instantaneous and each
`time.sleep(10)` advances the clock by exactly 10 seconds, so the `k`-th
poll happens at elapsed time `10 * k`. -/

/-- The configuration surface of `rev_ai.py` (`REV_AI_API_KEY`,
`WEBHOOK_CALLBACK_URL`); the empty string models an unset (falsy)
value. -/
structure Config where
  apiKey : String
  callbackUrl : String
  deriving Repr, DecidableEq

/-- The `POST /jobs` payload that `handle_transcription_job` builds. -/
structure SubmitPayload where
  media_url : String
  email : String
  question : String
  notification_config : Option (String × String)
  deriving Repr, DecidableEq

/-- The Rev.ai provider endpoints as data. -/
structure Provider where
  submit : SubmitPayload → Except String JobJson
  jobStatus : Nat → Except String JobJson
  transcript : Except String Transcript
  mq : String → MediaQuality

/-- `rev_ai.check_job_status`: wraps a transport failure of the `k`-th
status fetch into a `RevAiError`. -/
def check_job_status (P : Provider) (k : Nat) : Except PyErr JobJson :=
  (P.jobStatus k).mapError
    (fun m => .revAiError ("Failed to check job status: " ++ m))

/-- `rev_ai.get_transcript`: wraps a transport failure into a
`RevAiError`. -/
def get_transcript (P : Provider) : Except PyErr Transcript :=
  P.transcript.mapError
    (fun m => .revAiError ("Failed to retrieve transcript: " ++ m))

/-- Result of `handle_transcription_job`: either the raw submission
response (no wait), or the completed dictionary
`{"job_id", "status": "completed", "transcript"}`. -/
inductive JobResult where
  | submitted (jd : JobJson)
  | completed (job_id : String) (transcript : Transcript)
  deriving Repr, DecidableEq

/-- The number of polls the wait loop performs: the `k`-th poll happens
iff `10 * k < maxWait`. -/
def npolls (maxWait : Nat) : Nat := (maxWait + 9) / 10

/-- The synchronous wait loop (`rev_ai.py` lines 178-194), from poll
index `k`: while the elapsed time `10 * k` is below `max_wait_time`,
fetch the status; on `completed` fetch and return the transcript, on
`failed` raise a `RevAiError` carrying the provider's failure detail,
otherwise sleep 10 seconds and repeat; when the ceiling is reached raise
the timeout `RevAiError`.  Also returns the list of elapsed times at
which polls happened. -/
def pollLoop (P : Provider) (jobId : String) (maxWait : Nat) (k : Nat) :
    Except PyErr JobResult × List Nat :=
  if _h : 10 * k < maxWait then
    match check_job_status P k with
    | .error e => (.error e, [10 * k])
    | .ok st =>
      if st.status = some "completed" then
        match get_transcript P with
        | .error e => (.error e, [10 * k])
        | .ok tr => (.ok (.completed jobId tr), [10 * k])
      else if st.status = some "failed" then
        (.error (.revAiError ("Transcription job " ++ jobId ++ " failed: " ++
          pyShowOpt st.failure_detail)), [10 * k])
      else
        let r := pollLoop P jobId maxWait (k + 1)
        (r.1, 10 * k :: r.2)
  else
    (.error (.revAiError ("Transcription job " ++ jobId ++
      " did not complete within " ++ toString maxWait ++ " seconds")), [])
termination_by maxWait - 10 * k
decreasing_by omega

/-- `rev_ai.handle_transcription_job`: credential check, then
callback/wait check, then format validation, then submission; in wait
mode with a truthy job id, the poll loop. -/
def handle_transcription_job (cfg : Config) (P : Provider)
    (media_url email question : String)
    (wait_for_completion : Bool := false) (max_wait_time : Nat := 300) :
    Except PyErr JobResult :=
  if cfg.apiKey = "" then
    .error (.revAiError "REV_AI_API_KEY not configured")
  else if cfg.callbackUrl = "" ∧ wait_for_completion = false then
    .error (.revAiError "WEBHOOK_CALLBACK_URL not configured")
  else
    let v := validate_media_format media_url
    if v.1 = false then .error (.revAiError v.2)
    else
      let payload : SubmitPayload :=
        ⟨media_url, email, question,
          if cfg.callbackUrl ≠ "" then some (cfg.callbackUrl, "POST")
          else none⟩
      match P.submit payload with
      | .error m =>
        .error (.revAiError ("Failed to submit transcription job: " ++ m))
      | .ok jd =>
        match jd.id with
        | some j =>
          if wait_for_completion && j ≠ "" then
            (pollLoop P j max_wait_time 0).1
          else .ok (.submitted jd)
        | none => .ok (.submitted jd)

/-! Embedding of `storage/sheets.py`.  The Sheets service is explicit
data: `init` models `init_sheets_service`, `readEmailCol` the
`values().get` of column `E:E`, `readColA` that of `A:A`, and
`writeCell c r v` the `values().update` of cell `(column c, row r)` with
value `v`; `.error` is a transport failure.  The function's write
effects are returned as a list of performed `Write`s alongside the
boolean result. -/

/-- One successful single-cell write (column index, 1-based row,
value). -/
structure Write where
  col : Nat
  row : Nat
  value : String
  deriving Repr, DecidableEq

/-- The Sheets backend endpoints as data. -/
structure SheetsSvc where
  init : Except String Unit
  readEmailCol : Except String (List (List String))
  readColA : Except String (List (List String))
  writeCell : Nat → Nat → String → Except String Unit

/-- `config.QUESTION_COLUMN_MAP`: per-question column mapping
(`link_col`, `transcript_col`); only "Staying Connected" is mapped. -/
def QUESTION_COLUMN_MAP (question : String) : Option (Nat × Nat) :=
  if question = "Staying Connected" then some (15, 16) else none

/-- The scan of `find_email_row`: first row (1-based) whose first cell is
the email (`if row and row[0] == email`). -/
def scanEmail (email : String) : List (List String) → Nat → Option Nat
  | [], _ => none
  | row :: rest, i =>
    if row.head? = some email then some (i + 1)
    else scanEmail email rest (i + 1)

/-- `sheets.find_email_row`: `none` both when the email is absent and
when the `E:E` read fails (the transport error is caught inside). -/
def find_email_row (S : SheetsSvc) (email : String) : Option Nat :=
  match S.readEmailCol with
  | .error _ => none
  | .ok values => scanEmail email values 0

/-- The quality-metrics dictionary as `update_transcript` reads it
(`.get("overall_confidence", 0)`, `.get("warnings", [])`). -/
structure QMeta where
  overall_confidence : Option ℚ
  warnings : Option (List String)
  deriving Repr, DecidableEq

/-- Model of Python `f"{confidence:.2%}"`: percent with two decimals. -/
def pctFormat (q : ℚ) : String :=
  let cents : ℤ := round (q * 10000)
  toString (cents / 100) ++ "." ++
    (let f := (cents % 100).toNat
     (if f < 10 then "0" else "") ++ toString f) ++ "%"

/-- The quality-notes footer (`sheets.py` lines 103-110): empty unless
metrics are present and have warnings. -/
def quality_note (qm : Option QMeta) : String :=
  match qm with
  | none => ""
  | some m =>
    let warnings := m.warnings.getD []
    if warnings = [] then ""
    else
      "\n\nQuality Notes:\n- Confidence: " ++
        pctFormat (m.overall_confidence.getD 0) ++ "\n" ++
        String.intercalate "\n" (warnings.map (fun w => "- " ++ w))

/-- The row-resolution step of `update_transcript` (lines 79-86): the
first email match, else `len(A:A values) + 1` (next free row). -/
def resolveRow (S : SheetsSvc) (email : String) : Except String Nat :=
  match find_email_row S email with
  | some r => .ok r
  | none => S.readColA.map (fun vs => vs.length + 1)

/-- `sheets.update_transcript`.  Total (never throws): every transport
error is caught and turned into `false`; a missing column mapping is
`false`; otherwise the media URL is written to the link column and the
transcript with the quality-notes footer to the transcript column of the
resolved row, and the result is `true`. -/
def update_transcript (S : SheetsSvc) (email question media_url transcript :
    String) (qm : Option QMeta) : Bool × List Write :=
  match S.init with
  | .error _ => (false, [])
  | .ok _ =>
    match resolveRow S email with
    | .error _ => (false, [])
    | .ok row =>
      match QUESTION_COLUMN_MAP question with
      | none => (false, [])
      | some cols =>
        match S.writeCell cols.1 row media_url with
        | .error _ => (false, [])
        | .ok _ =>
          let note := quality_note qm
          let tw := pyStrip (transcript ++ "\n" ++ note)
          match S.writeCell cols.2 row tw with
          | .error _ => (false, [⟨cols.1, row, media_url⟩])
          | .ok _ => (true, [⟨cols.1, row, media_url⟩, ⟨cols.2, row, tw⟩])

/-! Embedding of `webhooks/routes.py` and `manual/routes.py`. -/

/-- Rendering of `str(e)` for the exceptions of the model (the `KeyError`
and `IndexError` texts are CPython's). -/
def pyErrStr : PyErr → String
  | .httpError m => m
  | .keyError k => "'" ++ k ++ "'"
  | .indexError => "list index out of range"
  | .zeroDivision => "division by zero"
  | .typeError m => m
  | .revAiError m => m

/-- `retry_with_backoff` body iteration (`webhooks/routes.py` lines
23-30): `f i` is the decorated function's outcome on attempt `i`; on the
last remaining attempt the outcome (value or exception) is returned as
is; otherwise an exception sleeps `backoff * 2^i` seconds and retries.
Returns the outcome and the list of sleep durations. -/
def retryAux {α : Type} (backoff : Nat) (f : Nat → Except PyErr α) :
    Nat → Nat → Except PyErr α × List Nat
  | i, 0 => (f i, [])
  | i, 1 => (f i, [])
  | i, n + 2 =>
    match f i with
    | .ok a => (.ok a, [])
    | .error _ =>
      let r := retryAux backoff f (i + 1) (n + 1)
      (r.1, backoff * 2 ^ i :: r.2)

/-- `webhooks.retry_with_backoff(retries, backoff_in_seconds)`: with
`retries = 0` the loop body never runs and line 31 calls the function
once, uncaught. -/
def retry_with_backoff {α : Type} (retries backoff : Nat)
    (f : Nat → Except PyErr α) : Except PyErr α × List Nat :=
  match retries with
  | 0 => (f 0, [])
  | n + 1 => retryAux backoff f 0 (n + 1)

/-- One answer of the form-response payload. -/
structure Answer where
  media_url : Option String
  question_id : Option String
  answer_id : Option String
  share_id : Option String
  atype : Option String
  deriving Repr, DecidableEq

/-- The contact of the form-response payload. -/
structure Contact where
  email : Option String
  name : Option String
  deriving Repr, DecidableEq

/-- One form question (`question_id` plus `metadata.text`). -/
structure Question where
  question_id : Option String
  text : Option String
  deriving Repr, DecidableEq

/-- `webhooks.find_question_text`. -/
def find_question_text : List Question → String → String
  | [], _ => "Unknown Question"
  | q :: rest, qid =>
    if q.question_id = some qid then q.text.getD "Unknown Question"
    else find_question_text rest qid

/-- The per-answer outcome dictionary of `process_media_answer`: either
the caught-exception error dictionary or a job result. -/
inductive AnswerOutcome where
  | errorResult (error media_url : String)
  | jobOutcome (r : JobResult)
  deriving Repr, DecidableEq

/-- CPython's message for the keyword-argument mismatch at
`webhooks/routes.py` line 123: `process_media_answer` calls
`handle_transcription_job(..., metadata={...})`, but the function's
signature (`rev_ai.py` line 108) has no `metadata` parameter, so the call
raises `TypeError` before the job is ever submitted. -/
def TYPE_ERROR_MSG : String :=
  "handle_transcription_job() got an unexpected keyword argument 'metadata'"

/-- The body of `process_media_answer` (`webhooks/routes.py` lines
110-155).  `answer["media_url"]` is a bare index (KeyError propagates —
it is raised before the `try` block).  Inside the `try`, the
`handle_transcription_job` call raises `TypeError` (unexpected keyword
argument `metadata`), which `except Exception` turns into the
"Unexpected error" result dictionary; the submission therefore never
happens on this path. -/
def process_media_answer_body (answer : Answer) (_contact : Contact)
    (form_questions : List Question) (_interaction_id : String) :
    Except PyErr AnswerOutcome :=
  match answer.media_url with
  | none => .error (.keyError "media_url")
  | some mu =>
    let _question_text :=
      find_question_text form_questions (answer.question_id.getD "Unknown")
    .ok (.errorResult ("Unexpected error: " ++ TYPE_ERROR_MSG) mu)

/-- `webhooks.process_media_answer`: the whole body is wrapped by
`@retry_with_backoff(retries=3)`. -/
def process_media_answer (answer : Answer) (contact : Contact)
    (form_questions : List Question) (interaction_id : String) :
    Except PyErr AnswerOutcome × List Nat :=
  retry_with_backoff 3 1
    (fun _ => process_media_answer_body answer contact form_questions
      interaction_id)

/-- The transcript-text extraction used verbatim on all completed paths
(`webhooks/routes.py` lines 67 and 137, `manual/routes.py` lines 68 and
119): `transcript.get("monologues", [{}])[0].get("elements", [{}])[0]
.get("value", "")` — only the FIRST element of the FIRST monologue. -/
def extract_transcript_text (t : Transcript) : Except PyErr String :=
  match t.monologues.getD [⟨none⟩] with
  | [] => .error .indexError
  | m :: _ =>
    match m.elements.getD [⟨none, none, none, none⟩] with
    | [] => .error .indexError
    | e :: _ => .ok (e.value.getD "")

/-- `webhooks.process_transcript` output: the quality dictionary,
optionally extended with the NLP fields (only when the text was
nonempty). -/
structure ProcessOut where
  quality : QualityResult
  nlp : Option AnalysisOut
  deriving Repr, DecidableEq

/-- `webhooks.process_transcript`: `get_transcript_quality(job_id)` (its
two provider fetches are the index-0 status and the transcript
endpoints), then NLP analysis for nonempty text. -/
def process_transcript (P : Provider) (N : Nlp)
    (transcript_text : String) : Except PyErr ProcessOut :=
  match get_transcript_quality (P.jobStatus 0) P.mq P.transcript with
  | .error e => .error e
  | .ok qr =>
    if transcript_text ≠ "" then
      match get_transcript_analysis N transcript_text with
      | .error e => .error e
      | .ok a => .ok ⟨qr, some a⟩
    else .ok ⟨qr, none⟩

/-- The metadata carried by a Rev.ai callback job. -/
structure Meta where
  email : Option String
  question : Option String
  media_url : Option String
  deriving Repr, DecidableEq

/-- The `job` object of a Rev.ai callback payload. -/
structure CallbackJob where
  id : Option String
  status : Option String
  metadata : Option Meta
  failure_detail : Option String
  deriving Repr, DecidableEq

/-- A Rev.ai callback payload. -/
structure CallbackData where
  job : Option CallbackJob
  deriving Repr, DecidableEq

/-- The dictionary `handle_webhook_callback` returns; `transcript` and
`metadata` keys exist only on the completed branch. -/
structure CallbackResult where
  job_id : String
  status : Option String
  transcript : Option Transcript
  metadata : Option Meta
  deriving Repr, DecidableEq

/-- `rev_ai.handle_webhook_callback`. -/
def handle_webhook_callback (P : Provider) (data : CallbackData) :
    Except PyErr CallbackResult :=
  let job := data.job.getD ⟨none, none, none, none⟩
  let jid := job.id.getD ""
  if jid = "" then .error (.revAiError "No job ID in callback data")
  else if job.status = some "completed" then
    match get_transcript P with
    | .error e => .error e
    | .ok tr =>
      .ok ⟨jid, some "completed", some tr,
        some (job.metadata.getD ⟨none, none, none⟩)⟩
  else if job.status = some "failed" then
    .error (.revAiError ("Job " ++ jid ++ " failed: " ++
      pyShowOpt job.failure_detail))
  else .ok ⟨jid, job.status, none, none⟩

/-- The arguments of an `update_transcript` call made by a route (the
store effect recorded at the interface). -/
structure StoreArgs where
  email : Option String
  question : Option String
  media_url : Option String
  transcript : String
  deriving Repr, DecidableEq

/-- The shared completed-transcript tail of the webhook routes
(`webhooks/routes.py` lines 68-78 and 138-148): run
`process_transcript`, and for nonempty text read `enhanced_text` out of
the merged metrics (set at line 52; a bare index) and call
`update_transcript` with it. -/
def storeFromTranscript (P : Provider) (N : Nlp) (text : String)
    (em qn mu : Option String) : Except PyErr (Option StoreArgs) :=
  match process_transcript P N text with
  | .error e => .error e
  | .ok qm =>
    if text ≠ "" then
      match qm.nlp with
      | none => .error (.keyError "enhanced_text")
      | some a => .ok (some ⟨em, qn, mu, a.enhanced_text⟩)
    else .ok none

/-- The `try` part of `webhooks.handle_rev_ai_callback` (lines 59-80):
parse the callback; on a completed job extract the first-element text,
process it and store. -/
def handle_rev_ai_callback_core (P : Provider) (N : Nlp)
    (data : CallbackData) : Except PyErr (Option StoreArgs) :=
  match handle_webhook_callback P data with
  | .error e => .error e
  | .ok cb =>
    if cb.status = some "completed" then
      match cb.transcript with
      | none => .error (.keyError "transcript")
      | some tr =>
        match cb.metadata with
        | none => .error (.keyError "metadata")
        | some md =>
          match extract_transcript_text tr with
          | .error e => .error e
          | .ok text =>
            storeFromTranscript P N text md.email md.question md.media_url
    else .ok none

/-- The response of `handle_rev_ai_callback`, with the recorded store
call. -/
structure CallbackOut where
  status : String
  error : Option String
  stored : Option StoreArgs
  deriving Repr, DecidableEq

/-- `webhooks.handle_rev_ai_callback`: every exception is caught and
reported as `{"status": "error", "error": str(e)}`. -/
def handle_rev_ai_callback (P : Provider) (N : Nlp) (data : CallbackData) :
    CallbackOut :=
  match handle_rev_ai_callback_core P N data with
  | .ok st => ⟨"processed", none, st⟩
  | .error e => ⟨"error", some (pyErrStr e), none⟩

/-- The shape `process_media_answer` lines 136-148 test on the
submission result: status and optional embedded transcript.  (On the
live webhook path this slice is dead code: the submission call raises
`TypeError` — see `TYPE_ERROR_MSG` — and the webhook never requests
synchronous wait, so no completed result can reach it.) -/
structure SliceJobResult where
  status : Option String
  transcript : Option Transcript
  job_id : Option String
  deriving Repr, DecidableEq

/-- The inline-completion slice of `process_media_answer`
(`webhooks/routes.py` lines 136-148), parameterized by the submission
result it inspects. -/
def process_media_answer_completion (P : Provider) (N : Nlp)
    (jr : SliceJobResult) (email : Option String)
    (question_text media_url : String) : Except PyErr (Option StoreArgs) :=
  match jr.status, jr.transcript with
  | some "completed", some tr =>
    match extract_transcript_text tr with
    | .error e => .error e
    | .ok text =>
      storeFromTranscript P N text email (some question_text)
        (some media_url)
  | _, _ => .ok none

/-- A manual transcription request body. -/
structure ManualReq where
  media_url : Option String
  email : Option String
  question : Option String
  wait_for_completion : Option Bool
  max_wait_time : Option Nat
  deriving Repr, DecidableEq

/-- `manual.validate_request` (falsy = absent or empty). -/
def validate_request (d : ManualReq) : Option String :=
  match d.media_url with
  | none => some "media_url is required"
  | some mu =>
    if mu = "" then some "media_url is required"
    else
      let v := validate_media_format mu
      if v.1 = false then some v.2
      else
        match d.email with
        | none => some "email is required"
        | some e => if e = "" then some "email is required" else none

/-- The response of `POST /manual/transcribe`. -/
inductive ManualOut where
  | badRequest (error : String)
  | errorOut (error : String)
  | completedOut (job_id : String) (transcript : String)
  | submittedOut (status : String) (job_id : Option String)
  deriving Repr, DecidableEq

/-- `manual.request_transcription` (`manual/routes.py` lines 39-107):
validate, submit (possibly with synchronous wait), and on a completed
result with nonempty first-element text run quality + NLP, store the
ENHANCED text, and answer with it; an empty text falls through to the
submitted-response branch (whose `result.get("id")` is absent on the
completed dictionary). -/
def request_transcription (cfg : Config) (P : Provider) (N : Nlp)
    (d : ManualReq) : ManualOut × Option StoreArgs :=
  match validate_request d with
  | some err => (.badRequest err, none)
  | none =>
    let mu := d.media_url.getD ""
    let em := d.email.getD ""
    let qn := d.question.getD "Manual request"
    match handle_transcription_job cfg P mu em qn
      (d.wait_for_completion.getD false) (d.max_wait_time.getD 300) with
    | .error e => (.errorOut (pyErrStr e), none)
    | .ok (.completed jid tr) =>
      match extract_transcript_text tr with
      | .error e => (.errorOut (pyErrStr e), none)
      | .ok text =>
        if text ≠ "" then
          match get_transcript_quality (P.jobStatus 0) P.mq P.transcript with
          | .error e => (.errorOut (pyErrStr e), none)
          | .ok _qm =>
            match get_transcript_analysis N text with
            | .error e => (.errorOut (pyErrStr e), none)
            | .ok a =>
              (.completedOut jid a.enhanced_text,
                some ⟨some em, some qn, some mu, a.enhanced_text⟩)
        else (.submittedOut "completed" none, none)
    | .ok (.submitted jd) =>
      (.submittedOut (jd.status.getD "unknown") jd.id, none)

/-- The response of `GET /manual/status/{job_id}`. -/
inductive StatusOut where
  | completedOut (transcript : String)
  | statusOut (st : JobJson)
  | errorOut (error : String)
  deriving Repr, DecidableEq

/-- `manual.check_status` (`manual/routes.py` lines 110-141): on a
completed status fetch the transcript, and for nonempty first-element
text answer with the ENHANCED text (nothing is stored on this path); an
empty text falls through to `jsonify(status)`. -/
def check_status (P : Provider) (N : Nlp) : StatusOut :=
  match check_job_status P 0 with
  | .error e => .errorOut (pyErrStr e)
  | .ok st =>
    if st.status = some "completed" then
      match get_transcript P with
      | .error e => .errorOut (pyErrStr e)
      | .ok tr =>
        match extract_transcript_text tr with
        | .error e => .errorOut (pyErrStr e)
        | .ok text =>
          if text ≠ "" then
            match get_transcript_quality (P.jobStatus 0) P.mq
              P.transcript with
            | .error e => .errorOut (pyErrStr e)
            | .ok _ =>
              match get_transcript_analysis N text with
              | .error e => .errorOut (pyErrStr e)
              | .ok a => .completedOut a.enhanced_text
          else .statusOut st
    else .statusOut st

/-! THEOREMS. Lemmas about `afterLast`. -/

lemma mem_of_mem_takeWhile {p : Char → Bool} :
    ∀ {l : List Char} {a : Char}, a ∈ l.takeWhile p → a ∈ l := by
  intro l
  induction l with
  | nil => intro a h; simp at h
  | cons c t ih =>
    intro a h
    rw [List.takeWhile_cons] at h
    cases hp : p c with
    | false => rw [hp] at h; simp at h
    | true =>
      rw [hp] at h
      rcases List.mem_cons.mp h with h | h
      · exact h ▸ List.mem_cons_self ..
      · exact List.mem_cons_of_mem _ (ih h)

lemma mem_of_mem_afterLast {sep : Char} {cs : List Char} {a : Char}
    (h : a ∈ afterLast sep cs) : a ∈ cs := by
  unfold afterLast at h
  rw [List.mem_reverse] at h
  have := mem_of_mem_takeWhile h
  rwa [List.mem_reverse] at this

/-- If `a` occurs before the first `b`, then cutting at the first `a` is the
same on `l` and on `l` cut at the first `b`. -/
lemma takeWhile_ne_comm {a b : Char} :
    ∀ {l : List Char}, a ∈ l.takeWhile (fun c => c ≠ b) →
      l.takeWhile (fun c => c ≠ a) =
        (l.takeWhile (fun c => c ≠ b)).takeWhile (fun c => c ≠ a) := by
  intro l
  induction l with
  | nil => intro h; simp at h
  | cons c t ih =>
    intro h
    by_cases hcb : c = b
    · subst hcb; simp [List.takeWhile_cons] at h
    · by_cases hca : c = a
      · subst hca
        simp [List.takeWhile_cons, hcb]
      · have ha : a ∈ t.takeWhile (fun c => c ≠ b) := by
          simp only [List.takeWhile_cons] at h
          rw [if_pos (by simp [hcb])] at h
          rcases List.mem_cons.mp h with h | h
          · exact absurd h.symm hca
          · exact h
        rw [show (c :: t).takeWhile (fun c => c ≠ b) =
              c :: t.takeWhile (fun c => c ≠ b) by
            rw [List.takeWhile_cons, if_pos (by simp [hcb])]]
        rw [List.takeWhile_cons, if_pos (by simp [hca]),
          List.takeWhile_cons, if_pos (by simp [hca]), ih ha]

/-- If `a` occurs in `l` but only after the first `b`, then `b` occurs
before the first `a`. -/
lemma mem_takeWhile_of_not_mem {a b : Char} (hab : a ≠ b) :
    ∀ {l : List Char}, a ∈ l → a ∉ l.takeWhile (fun c => c ≠ b) →
      b ∈ l.takeWhile (fun c => c ≠ a) := by
  intro l
  induction l with
  | nil => intro h; simp at h
  | cons c t ih =>
    intro h1 h2
    by_cases hca : c = a
    · subst hca
      simp only [List.takeWhile_cons] at h2
      rw [if_pos (by simp [hab])] at h2
      exact absurd (List.mem_cons_self ..) h2
    · by_cases hcb : c = b
      · subst hcb
        simp only [List.takeWhile_cons]
        rw [if_pos (by simp [Ne.symm hab])]
        exact List.mem_cons_self ..
      · simp only [List.takeWhile_cons] at h2
        rw [if_pos (by simp [hcb])] at h2
        simp only [List.takeWhile_cons]
        rw [if_pos (by simp [hca])]
        have h1' : a ∈ t := by
          rcases List.mem_cons.mp h1 with h | h
          · exact absurd h.symm hca
          · exact h
        exact List.mem_cons_of_mem _
          (ih h1' (fun hm => h2 (List.mem_cons_of_mem _ hm)))

/-- When the basename contains a dot, the after-last-dot suffix of the whole
path is the after-last-dot suffix of the basename. -/
lemma afterLast_dot_eq_of_mem_base {path : List Char}
    (h : '.' ∈ afterLast '/' path) :
    afterLast '.' path = afterLast '.' (afterLast '/' path) := by
  unfold afterLast at h ⊢
  rw [List.mem_reverse] at h
  rw [List.reverse_reverse, takeWhile_ne_comm h]

/-- When the path contains a dot but the basename does not, the code's
"extension" (after the last dot) contains a slash. -/
lemma slash_mem_afterLast_dot {path : List Char}
    (h1 : '.' ∈ path) (h2 : '.' ∉ afterLast '/' path) :
    '/' ∈ afterLast '.' path := by
  unfold afterLast at h2 ⊢
  rw [List.mem_reverse] at h2 ⊢
  rw [← List.mem_reverse] at h1
  exact mem_takeWhile_of_not_mem (by decide) h1 h2

lemma validate_of_get_eq {url : String} {e : String}
    (h : get_file_extension url = some e) :
    validate_media_format url =
      (if e = "" then (false, "Could not determine file format")
       else if e ∉ SUPPORTED_AUDIO_FORMATS then
        (false, "Unsupported file format: " ++ e ++ ". Supported formats: " ++
          String.intercalate ", " SUPPORTED_AUDIO_FORMATS)
       else (true, "File format is supported")) := by
  unfold validate_media_format
  rw [h]

lemma validate_of_get_none {url : String}
    (h : get_file_extension url = none) :
    validate_media_format url = (false, "Could not determine file format") := by
  unfold validate_media_format
  rw [h]

lemma slash_mem_pyLower {cs : List Char} (h : '/' ∈ cs) :
    '/' ∈ pyLower cs :=
  List.mem_map.mpr ⟨'/', h, by decide⟩

lemma no_slash_of_supported {e : String} (he : e ∈ SUPPORTED_AUDIO_FORMATS) :
    '/' ∉ e.data := by
  simp only [SUPPORTED_AUDIO_FORMATS, List.mem_cons, List.not_mem_nil,
    or_false] at he
  rcases he with rfl | rfl | rfl | rfl | rfl | rfl | rfl | rfl | rfl | rfl <;>
    decide

lemma empty_not_supported : "" ∉ SUPPORTED_AUDIO_FORMATS := by decide

lemma str_append_assoc (a b c : String) : a ++ b ++ c = a ++ (b ++ c) := by
  cases a with | mk la =>
  cases b with | mk lb =>
  cases c with | mk lc =>
  show String.mk (la ++ lb ++ lc) = String.mk (la ++ (lb ++ lc))
  rw [List.append_assoc]

/-- **C7.** For every URL, `validate_media_format` accepts exactly when the
lowercase file extension of the URL path (query string and fragment
ignored, extension of the last path segment) is in the supported-format
set; when an extension was extracted but rejected, the failure message
names it; when the path has no extension the URL is rejected. -/
theorem C7_validate_media_format_spec (url : String) :
    ((validate_media_format url).1 = true ↔
      ∃ e, spec_path_extension url = some e ∧ e ∈ SUPPORTED_AUDIO_FORMATS)
  ∧ (∀ e, get_file_extension url = some e → e ∉ SUPPORTED_AUDIO_FORMATS →
      (validate_media_format url).1 = false ∧
      (e ≠ "" → ∃ s t, (validate_media_format url).2 = s ++ e ++ t))
  ∧ (spec_path_extension url = none → (validate_media_format url).1 = false) := by
  classical
  by_cases hdot : '.' ∈ (urlparse_path url).data
  · -- an extension is extracted by the code
    have hget : get_file_extension url =
        some ⟨pyLower (afterLast '.' (urlparse_path url).data)⟩ := by
      unfold get_file_extension
      rw [if_pos hdot]
    set ce : String :=
      ⟨pyLower (afterLast '.' (urlparse_path url).data)⟩ with hce
    by_cases hbase : '.' ∈ afterLast '/' (urlparse_path url).data
    · -- the basename has a dot: code and spec extensions agree
      have hspec : spec_path_extension url = some ce := by
        unfold spec_path_extension
        rw [if_pos hbase, hce, afterLast_dot_eq_of_mem_base hbase]
      refine ⟨?_, ?_, ?_⟩
      · constructor
        · intro hv
          refine ⟨ce, hspec, ?_⟩
          rw [validate_of_get_eq hget] at hv
          by_cases h0 : ce = ""
          · rw [if_pos h0] at hv; simp at hv
          · rw [if_neg h0] at hv
            by_cases hmem : ce ∈ SUPPORTED_AUDIO_FORMATS
            · exact hmem
            · rw [if_pos hmem] at hv; simp at hv
        · rintro ⟨e, he, hmem⟩
          have hece : e = ce := by
            rw [hspec] at he; exact (Option.some_injective _ he).symm
          have hgete : get_file_extension url = some e := by
            rw [hget, hece]
          have h0 : e ≠ "" := fun h => empty_not_supported (h ▸ hmem)
          rw [validate_of_get_eq hgete, if_neg h0, if_neg (by simp [hmem])]
      · intro e he hmem
        constructor
        · rw [validate_of_get_eq he]
          by_cases h0 : e = ""
          · rw [if_pos h0]
          · rw [if_neg h0, if_pos hmem]
        · intro h0
          rw [validate_of_get_eq he, if_neg h0, if_pos hmem]
          refine ⟨"Unsupported file format: ",
            ". Supported formats: " ++
              String.intercalate ", " SUPPORTED_AUDIO_FORMATS, ?_⟩
          exact str_append_assoc _ _ _
      · intro h
        rw [hspec] at h; exact absurd h (by simp)
    · -- the basename has no dot: no spec extension, and the code's
      -- extension contains a slash, hence is unsupported
      have hspec : spec_path_extension url = none := by
        unfold spec_path_extension
        rw [if_neg hbase]
      have hslash : '/' ∈ ce.data :=
        slash_mem_pyLower (slash_mem_afterLast_dot hdot hbase)
      have hnmem : ce ∉ SUPPORTED_AUDIO_FORMATS :=
        fun hm => no_slash_of_supported hm hslash
      have hfalse : (validate_media_format url).1 = false := by
        rw [validate_of_get_eq hget]
        by_cases h0 : ce = ""
        · rw [if_pos h0]
        · rw [if_neg h0, if_pos hnmem]
      refine ⟨?_, ?_, fun _ => hfalse⟩
      · rw [hfalse]
        simp only [Bool.false_eq_true, false_iff]
        rintro ⟨e, he, _⟩
        rw [hspec] at he; exact absurd he (by simp)
      · intro e he hmem
        refine ⟨hfalse, fun h0 => ?_⟩
        rw [validate_of_get_eq he, if_neg h0, if_pos hmem]
        refine ⟨"Unsupported file format: ",
          ". Supported formats: " ++
            String.intercalate ", " SUPPORTED_AUDIO_FORMATS, ?_⟩
        exact str_append_assoc _ _ _
  · -- no dot in the path at all
    have hget : get_file_extension url = none := by
      unfold get_file_extension
      rw [if_neg hdot]
    have hspec : spec_path_extension url = none := by
      unfold spec_path_extension
      rw [if_neg (fun hb => hdot (mem_of_mem_afterLast hb))]
    have hfalse : (validate_media_format url).1 = false := by
      rw [validate_of_get_none hget]
    refine ⟨?_, ?_, fun _ => hfalse⟩
    · rw [hfalse]
      simp only [Bool.false_eq_true, false_iff]
      rintro ⟨e, he, _⟩
      rw [hspec] at he; exact absurd he (by simp)
    · intro e he
      rw [hget] at he; exact absurd he (by simp)

/-- Witness for C7 at concrete URLs: `audio.mp3` (accepted; its spec
extension is `mp3`, which is supported) and `doc.pdf` (rejected with a
message naming `pdf`). -/
theorem C7_validate_media_format_spec_witness :
    (validate_media_format "https://example.com/audio.mp3").1 = true ∧
    (validate_media_format "https://example.com/doc.pdf").1 = false ∧
    (∃ s t, (validate_media_format "https://example.com/doc.pdf").2 =
      s ++ "pdf" ++ t) := by
  refine ⟨?_, ?_, ?_⟩
  · exact (C7_validate_media_format_spec "https://example.com/audio.mp3").1.mpr
      ⟨"mp3", by decide, by decide⟩
  · exact ((C7_validate_media_format_spec "https://example.com/doc.pdf").2.1
      "pdf" (by decide) (by decide)).1
  · exact ((C7_validate_media_format_spec "https://example.com/doc.pdf").2.1
      "pdf" (by decide) (by decide)).2 (by decide)

/-! Claims C1 and C6: `get_transcript_quality`. -/

/-- **C1** (code bug).  For a completed job whose transcript has the two
text elements of confidence `0.95` and `0.75`, the report is as the claim
states (`overall_confidence = 0.85`, `low_confidence_count = 1`, rating
`"fair"`); but for a completed job whose transcript has NO text elements,
`get_transcript_quality` raises `ZeroDivisionError` (from
`len(low_confidence_words) / total_words` at `quality.py` line 88) instead
of returning a report with `overall_confidence = 0`. -/
theorem C1_quality_zero_elements_raises :
    (get_transcript_quality
        (.ok ⟨some "j1", some "completed", none, none⟩)
        (fun _ => ⟨"unknown", none⟩)
        (.ok ⟨some [⟨some []⟩]⟩)
      = .error .zeroDivision)
  ∧ (get_transcript_quality
        (.ok ⟨some "j1", some "completed", none, none⟩)
        (fun _ => ⟨"unknown", none⟩)
        (.ok ⟨some [⟨some [⟨some "text", some "Hello", some 0.95, some 0.5⟩,
            ⟨some "text", some "world", some 0.75, some 1⟩]⟩]⟩)
      = .ok (.completed ⟨0.85, 2, 1, [⟨"world", 0.75, 1⟩], "fair",
          ["High number of uncertain words"]⟩)) := by
  constructor
  · norm_num [get_transcript_quality, qualityStep, mediaQualityOf,
      List.foldlM_nil, List.foldlM_cons, Except.instMonad, Except.bind,
      Except.pure]
  · norm_num [get_transcript_quality, qualityStep, mediaQualityOf,
      List.foldlM_nil, List.foldlM_cons, Except.instMonad, Except.bind,
      Except.pure]

/-- **C6.**  For every job response whose status is not `"completed"`,
`get_transcript_quality` returns (does not raise) the status-only report
carrying exactly the status, the fixed message and the media-quality
sub-report — the `incomplete` constructor has no confidence fields — and
the result does not depend on the transcript endpoint at all (no
transcript fetch or confidence computation). -/
theorem C6_incomplete_job_status_only (jr : JobJson)
    (mqFn : String → MediaQuality) (t1 t2 : Except String Transcript)
    (s : String) (h1 : jr.status = some s) (h2 : s ≠ "completed") :
    get_transcript_quality (.ok jr) mqFn t1 =
      .ok (.incomplete s "Transcript not ready yet"
        (mediaQualityOf mqFn jr.media_url))
    ∧ get_transcript_quality (.ok jr) mqFn t1 =
        get_transcript_quality (.ok jr) mqFn t2 := by
  have e : ∀ t : Except String Transcript,
      get_transcript_quality (.ok jr) mqFn t =
        .ok (.incomplete s "Transcript not ready yet"
          (mediaQualityOf mqFn jr.media_url)) := by
    intro t
    simp only [get_transcript_quality]
    rw [h1]
    simp [h2]
  exact ⟨e t1, (e t1).trans (e t2).symm⟩

/-- Witness for C6: a job in status `in_progress` yields the status-only
report, identically for two different transcript-endpoint outcomes. -/
theorem C6_incomplete_job_status_only_witness :
    get_transcript_quality
        (.ok ⟨some "j2", some "in_progress", none, none⟩)
        (fun _ => ⟨"unknown", none⟩) (.ok ⟨none⟩) =
      .ok (.incomplete "in_progress" "Transcript not ready yet"
        ⟨"unknown", some "Media URL not found in job details"⟩)
    ∧ get_transcript_quality
        (.ok ⟨some "j2", some "in_progress", none, none⟩)
        (fun _ => ⟨"unknown", none⟩) (.ok ⟨none⟩) =
      get_transcript_quality
        (.ok ⟨some "j2", some "in_progress", none, none⟩)
        (fun _ => ⟨"unknown", none⟩) (.error "transport down") :=
  C6_incomplete_job_status_only
    ⟨some "j2", some "in_progress", none, none⟩
    (fun _ => ⟨"unknown", none⟩) (.ok ⟨none⟩) (.error "transport down")
    "in_progress" rfl (by decide)

/-! Claims C2 and C8: `enhance_transcript`. -/

lemma capLoop_id : ∀ (sents : List Sentence) (acc : String),
    (∀ s ∈ sents, ∃ c cs, s.text.data = c :: cs ∧ c.isLower = false) →
    capLoop sents acc = .ok acc := by
  intro sents
  induction sents with
  | nil => intro acc _; rfl
  | cons s rest ih =>
    intro acc h
    obtain ⟨c, cs, hdata, hlow⟩ := h s (List.mem_cons_self ..)
    unfold capLoop
    rw [hdata]
    simp only [hlow, Bool.false_eq_true, if_false]
    exact ih acc (fun x hx => h x (List.mem_cons_of_mem _ hx))

lemma capLoop_ok : ∀ (sents : List Sentence) (acc : String),
    (∀ s ∈ sents, s.text ≠ "") → ∃ t, capLoop sents acc = .ok t := by
  intro sents
  induction sents with
  | nil => intro acc _; exact ⟨acc, rfl⟩
  | cons s rest ih =>
    intro acc h
    have hs : s.text ≠ "" := h s (List.mem_cons_self ..)
    have hrest : ∀ x ∈ rest, x.text ≠ "" :=
      fun x hx => h x (List.mem_cons_of_mem _ hx)
    unfold capLoop
    match hd : s.text.data with
    | [] => exact absurd (String.ext (by rw [hd])) hs
    | c :: cs =>
      by_cases hlow : c.isLower
      · by_cases h0 : s.start_char = 0
        · simp only [hlow, if_true, h0, if_pos]
          exact ih _ hrest
        · simp only [hlow, if_true, if_neg h0]
          exact ih _ hrest
      · simp only [Bool.not_eq_true] at hlow
        simp only [hlow, Bool.false_eq_true, if_false]
        exact ih _ hrest

/-- **C2 counterexample.**  The claim fails on the code.  With a
six-sentence segmentation whose first sentence starts lowercase at offset
0, the enhanced text still starts with the lowercase `'f'`: the
paragraph regrouping rebuilds the output from the original sentence texts
(`nlp.py` line 124), discarding the capitalization fix.  And with a
two-sentence text whose first sentence starts lowercase at offset 0, the
offset-0 branch (`nlp.py` line 103) replaces the whole text by just the
first sentence, discarding the rest ("Bye." is gone). -/
theorem C2_enhance_counterexample :
    enhance_transcript
        (fun _ => [⟨0, "first one."⟩, ⟨11, "Second two."⟩,
          ⟨23, "Third three."⟩, ⟨36, "Fourth four."⟩, ⟨49, "Fifth five."⟩,
          ⟨61, "Sixth six."⟩])
        "first one. Second two. Third three. Fourth four. Fifth five. Sixth six."
      = .ok
        ("first one. Second two. Third three.\n\nFourth four. Fifth five. Sixth six.",
          [])
    ∧ ("first one. Second two. Third three.\n\nFourth four. Fifth five. Sixth six.".data.head?
        = some 'f' ∧ 'f'.isLower = true)
    ∧ enhance_transcript (fun _ => [⟨0, "hello there."⟩, ⟨13, "Bye."⟩])
        "hello there. Bye."
      = .ok ("Hello there.", []) := by
  refine ⟨by decide, by decide, by decide⟩

/-- **C2 (amended).**  What `enhance_transcript` actually guarantees:
(a) when more than 5 sentences are detected (all nonempty), the output
text is the paragraph regrouping of the ORIGINAL detected sentence texts
— independent of any capitalization fix, which is therefore discarded;
(b) when at most 5 sentences are detected, the first starts lowercase at
character offset 0 and the others do not start lowercase, the output is
just the first sentence capitalized — the rest of the text is discarded
(warnings empty when that sentence already ends in terminal
punctuation). -/
theorem C2_enhance_amended :
    (∀ (F : String → List Sentence) (text : String),
      5 < (F text).length → (∀ s ∈ F text, s.text ≠ "") →
      ∃ w, enhance_transcript F text = .ok (paragraphJoin (F text), w))
  ∧ (∀ (F : String → List Sentence) (text : String) (s0 : Sentence)
      (rest : List Sentence) (c : Char) (cs : List Char),
      F text = s0 :: rest → s0.start_char = 0 →
      s0.text.data = c :: cs → c.isLower = true →
      (∀ s ∈ rest, ∃ d ds, s.text.data = d :: ds ∧ d.isLower = false) →
      (F text).length ≤ 5 →
      (∃ e, (pyStrip ⟨c.toUpper :: cs⟩).data.getLast? = some e ∧
        (e = '.' ∨ e = '!' ∨ e = '?')) →
      enhance_transcript F text = .ok (⟨c.toUpper :: cs⟩, [])) := by
  constructor
  · intro F text h6 hne
    obtain ⟨t, ht⟩ := capLoop_ok (F text) text hne
    have hE : enhance_transcript F text = .ok (enhanceFinish (F text) t) := by
      simp only [enhance_transcript]
      rw [ht]
    exact ⟨_, by
      rw [hE]
      simp only [enhanceFinish]
      rw [if_pos h6]⟩
  · intro F text s0 rest c cs hF h0 hdata hlow hrest hlen hend
    have hcap1 : capLoop (s0 :: rest) text = .ok ⟨c.toUpper :: cs⟩ := by
      unfold capLoop
      rw [hdata]
      simp only [hlow, if_true, h0, if_pos]
      exact capLoop_id rest _ hrest
    have hE : enhance_transcript F text =
        .ok (enhanceFinish (s0 :: rest) ⟨c.toUpper :: cs⟩) := by
      simp only [enhance_transcript]
      rw [hF, hcap1]
    rw [hF] at hlen
    simp only [List.length_cons] at hlen
    have hlen' : ¬ (5 < rest.length + 1) := by omega
    obtain ⟨e, he, hes⟩ := hend
    rw [hE]
    simp only [enhanceFinish]
    rcases hes with rfl | rfl | rfl <;> simp [he, hlen']

/-- Witness for the amended C2: part (a) applied at the six-sentence
input of the counterexample, part (b) applied at the two-sentence
input. -/
theorem C2_enhance_amended_witness :
    (∃ w, enhance_transcript
        (fun _ => [⟨0, "first one."⟩, ⟨11, "Second two."⟩,
          ⟨23, "Third three."⟩, ⟨36, "Fourth four."⟩, ⟨49, "Fifth five."⟩,
          ⟨61, "Sixth six."⟩])
        "first one. Second two. Third three. Fourth four. Fifth five. Sixth six."
      = .ok (paragraphJoin [⟨0, "first one."⟩, ⟨11, "Second two."⟩,
          ⟨23, "Third three."⟩, ⟨36, "Fourth four."⟩, ⟨49, "Fifth five."⟩,
          ⟨61, "Sixth six."⟩], w))
  ∧ enhance_transcript (fun _ => [⟨0, "hello there."⟩, ⟨13, "Bye."⟩])
      "hello there. Bye." = .ok (⟨'h'.toUpper :: "ello there.".data⟩, []) := by
  constructor
  · refine C2_enhance_amended.1 _ _ (by decide) ?_
    intro s hs
    simp only [List.mem_cons, List.not_mem_nil, or_false] at hs
    rcases hs with rfl | rfl | rfl | rfl | rfl | rfl <;> decide
  · refine C2_enhance_amended.2 _ "hello there. Bye." ⟨0, "hello there."⟩
      [⟨13, "Bye."⟩] 'h' "ello there.".data rfl rfl (by decide) (by decide)
      ?_ (by decide) ⟨'.', by decide, Or.inl rfl⟩
    intro s hs
    simp only [List.mem_cons, List.not_mem_nil, or_false] at hs
    subst hs
    exact ⟨'B', "ye.".data, by decide, by decide⟩

/-- **C8.**  `enhance_transcript` is the identity with no warnings on
already-correct short text: at most 5 detected sentences, none starting
lowercase, and the stripped text ending in `.`, `!` or `?`; hence running
it twice equals running it once. -/
theorem C8_enhance_idempotent (F : String → List Sentence) (text : String)
    (hlen : (F text).length ≤ 5)
    (hcap : ∀ s ∈ F text, ∃ c cs, s.text.data = c :: cs ∧ c.isLower = false)
    (hend : ∃ c, (pyStrip text).data.getLast? = some c ∧
      (c = '.' ∨ c = '!' ∨ c = '?')) :
    enhance_transcript F text = .ok (text, []) ∧
    (enhance_transcript F text).bind (fun r => enhance_transcript F r.1) =
      .ok (text, []) := by
  have hnot5 : ¬ (5 < (F text).length) := by omega
  obtain ⟨c, hc, hcs⟩ := hend
  have h1 : enhance_transcript F text = .ok (text, []) := by
    simp only [enhance_transcript]
    rw [capLoop_id _ _ hcap]
    rcases hcs with rfl | rfl | rfl <;> simp [enhanceFinish, hc, hnot5]
  refine ⟨h1, ?_⟩
  rw [h1]
  simpa [Except.bind] using h1

/-- Witness for C8: a concrete two-sentence, correctly capitalized and
punctuated text is returned unchanged, twice. -/
theorem C8_enhance_idempotent_witness :
    enhance_transcript (fun _ => [⟨0, "Hello there."⟩, ⟨13, "Bye."⟩])
      "Hello there. Bye." = .ok ("Hello there. Bye.", []) ∧
    (enhance_transcript (fun _ => [⟨0, "Hello there."⟩, ⟨13, "Bye."⟩])
      "Hello there. Bye.").bind
        (fun r => enhance_transcript
          (fun _ => [⟨0, "Hello there."⟩, ⟨13, "Bye."⟩]) r.1) =
      .ok ("Hello there. Bye.", []) := by
  refine C8_enhance_idempotent _ _ (by decide) ?_
    ⟨'.', by decide, Or.inl rfl⟩
  intro s hs
  simp only [List.mem_cons, List.not_mem_nil, or_false] at hs
  rcases hs with rfl | rfl
  · exact ⟨'H', "ello there.".data, by decide, by decide⟩
  · exact ⟨'B', "ye.".data, by decide, by decide⟩

/-! Claims C4 and C5: `handle_transcription_job`. -/

lemma pollLoop_stop (P : Provider) (jobId : String) (maxW k : Nat)
    (h : ¬ 10 * k < maxW) :
    pollLoop P jobId maxW k =
      (.error (.revAiError ("Transcription job " ++ jobId ++
        " did not complete within " ++ toString maxW ++ " seconds")), []) := by
  rw [pollLoop.eq_def, dif_neg h]

lemma pollLoop_pending_step (P : Provider) (jobId : String) (maxW k : Nat)
    (st : JobJson) (h10 : 10 * k < maxW) (hst : P.jobStatus k = .ok st)
    (h1 : st.status ≠ some "completed") (h2 : st.status ≠ some "failed") :
    pollLoop P jobId maxW k =
      ((pollLoop P jobId maxW (k + 1)).1,
        10 * k :: (pollLoop P jobId maxW (k + 1)).2) := by
  rw [pollLoop.eq_def, dif_pos h10]
  simp [check_job_status, Except.mapError, hst, h1, h2]

lemma pollLoop_completed_at (P : Provider) (jobId : String) (maxW k : Nat)
    (st : JobJson) (tr : Transcript) (h10 : 10 * k < maxW)
    (hst : P.jobStatus k = .ok st) (hc : st.status = some "completed")
    (htr : P.transcript = .ok tr) :
    pollLoop P jobId maxW k = (.ok (.completed jobId tr), [10 * k]) := by
  rw [pollLoop.eq_def, dif_pos h10]
  simp [check_job_status, Except.mapError, hst, hc, get_transcript, htr]

lemma pollLoop_failed_at (P : Provider) (jobId : String) (maxW k : Nat)
    (st : JobJson) (h10 : 10 * k < maxW)
    (hst : P.jobStatus k = .ok st) (hc : st.status = some "failed") :
    pollLoop P jobId maxW k =
      (.error (.revAiError ("Transcription job " ++ jobId ++ " failed: " ++
        pyShowOpt st.failure_detail)), [10 * k]) := by
  rw [pollLoop.eq_def, dif_pos h10]
  simp [check_job_status, Except.mapError, hst, hc]

/-- If every poll inside the wait window is a non-terminal status, the
loop times out, having polled exactly at times `10 * k` for every `k`
with `10 * k < maxW`. -/
lemma pollLoop_timeout (P : Provider) (jobId : String) (maxW : Nat)
    (hP : ∀ m, 10 * m < maxW → ∃ st, P.jobStatus m = .ok st ∧
      st.status ≠ some "completed" ∧ st.status ≠ some "failed") :
    ∀ n k, npolls maxW - k = n →
      pollLoop P jobId maxW k =
        (.error (.revAiError ("Transcription job " ++ jobId ++
          " did not complete within " ++ toString maxW ++ " seconds")),
          (List.range' k n).map (fun i => 10 * i)) := by
  intro n
  induction n with
  | zero =>
    intro k hk
    have h : ¬ 10 * k < maxW := by
      simp only [npolls] at hk; omega
    simp [pollLoop_stop P jobId maxW k h]
  | succ n ih =>
    intro k hk
    have h10 : 10 * k < maxW := by
      simp only [npolls] at hk; omega
    obtain ⟨st, hst, h1, h2⟩ := hP k h10
    rw [pollLoop_pending_step P jobId maxW k st h10 hst h1 h2,
      ih (k + 1) (by omega), List.range'_succ]
    simp

/-- Advancing the loop across an initial segment of non-terminal polls
prepends their poll times. -/
lemma pollLoop_advance (P : Provider) (jobId : String) (maxW k₀ : Nat)
    (hceil : 10 * k₀ < maxW)
    (hpend : ∀ m, m < k₀ → ∃ st, P.jobStatus m = .ok st ∧
      st.status ≠ some "completed" ∧ st.status ≠ some "failed") :
    ∀ n k, k₀ - k = n → k ≤ k₀ →
      pollLoop P jobId maxW k =
        ((pollLoop P jobId maxW k₀).1,
          (List.range' k (k₀ - k)).map (fun i => 10 * i) ++
            (pollLoop P jobId maxW k₀).2) := by
  intro n
  induction n with
  | zero =>
    intro k hk hkle
    have hkk : k = k₀ := by omega
    subst hkk
    simp
  | succ n ih =>
    intro k hk hkle
    have hklt : k < k₀ := by omega
    have h10 : 10 * k < maxW := by omega
    obtain ⟨st, hst, h1, h2⟩ := hpend k hklt
    rw [pollLoop_pending_step P jobId maxW k st h10 hst h1 h2,
      ih (k + 1) (by omega) (by omega)]
    have hsp : k₀ - k = (k₀ - (k + 1)) + 1 := by omega
    rw [hsp, List.range'_succ]
    simp

/-- **C4 counterexample.**  The claim says the media format is validated
first, before any configuration check.  With no API key configured and an
invalid-format URL, the raised error is the credential
`ConfigurationError`, not the format error: the code checks configuration
first (`rev_ai.py` lines 131-145). -/
theorem C4_config_before_format_counterexample :
    handle_transcription_job ⟨"", "https://cb.example.com/hook"⟩
        ⟨fun _ => .error "unreachable", fun _ => .error "unreachable",
          .error "unreachable", fun _ => ⟨"unknown", none⟩⟩
        "https://example.com/doc.txt" "a@b.c" "Q"
      = .error (.revAiError "REV_AI_API_KEY not configured")
  ∧ (validate_media_format "https://example.com/doc.txt").1 = false
  ∧ "REV_AI_API_KEY not configured" ≠
      (validate_media_format "https://example.com/doc.txt").2 := by
  refine ⟨by decide, by decide, by decide⟩

/-- **C4 (amended).**  `handle_transcription_job` fails with the
credential `RevAiError` when no API key is configured; otherwise fails
with the callback-configuration `RevAiError` when neither a callback URL
is configured nor synchronous wait is requested (so a completion-detection
path always exists); otherwise — configuration checks FIRST — it
validates the media format and fails with the validation message. -/
theorem C4_validation_order_amended (cfg : Config) (P : Provider)
    (u e q : String) (w : Bool) (mw : Nat) :
    (cfg.apiKey = "" →
      handle_transcription_job cfg P u e q w mw =
        .error (.revAiError "REV_AI_API_KEY not configured"))
  ∧ (cfg.apiKey ≠ "" → cfg.callbackUrl = "" → w = false →
      handle_transcription_job cfg P u e q w mw =
        .error (.revAiError "WEBHOOK_CALLBACK_URL not configured"))
  ∧ (cfg.apiKey ≠ "" → (cfg.callbackUrl ≠ "" ∨ w = true) →
      (validate_media_format u).1 = false →
      handle_transcription_job cfg P u e q w mw =
        .error (.revAiError (validate_media_format u).2)) := by
  refine ⟨?_, ?_, ?_⟩
  · intro h
    simp only [handle_transcription_job]
    rw [if_pos h]
  · intro hk hcb hw
    simp only [handle_transcription_job]
    rw [if_neg hk, if_pos ⟨hcb, hw⟩]
  · intro hk hor hv
    have hnot : ¬ (cfg.callbackUrl = "" ∧ w = false) := by
      rcases hor with h | h
      · exact fun hc => h hc.1
      · intro hc
        rw [h] at hc
        exact absurd hc.2 (by decide)
    simp only [handle_transcription_job]
    rw [if_neg hk, if_neg hnot, if_pos hv]

/-- Witness for the amended C4 at concrete configurations: missing key;
key but no callback and no wait; key, wait requested, invalid format. -/
theorem C4_validation_order_amended_witness :
    handle_transcription_job ⟨"", ""⟩
        ⟨fun _ => .error "x", fun _ => .error "x", .error "x",
          fun _ => ⟨"unknown", none⟩⟩ "https://example.com/a.mp3" "e" "q"
        false 300
      = .error (.revAiError "REV_AI_API_KEY not configured")
  ∧ handle_transcription_job ⟨"key", ""⟩
        ⟨fun _ => .error "x", fun _ => .error "x", .error "x",
          fun _ => ⟨"unknown", none⟩⟩ "https://example.com/a.mp3" "e" "q"
        false 300
      = .error (.revAiError "WEBHOOK_CALLBACK_URL not configured")
  ∧ handle_transcription_job ⟨"key", ""⟩
        ⟨fun _ => .error "x", fun _ => .error "x", .error "x",
          fun _ => ⟨"unknown", none⟩⟩ "https://example.com/doc.txt" "e" "q"
        true 300
      = .error (.revAiError
          (validate_media_format "https://example.com/doc.txt").2) := by
  refine ⟨?_, ?_, ?_⟩
  · exact (C4_validation_order_amended ⟨"", ""⟩ _ _ _ _ false 300).1 rfl
  · exact (C4_validation_order_amended ⟨"key", ""⟩ _ _ _ _ false 300).2.1
      (by decide) rfl rfl
  · exact (C4_validation_order_amended ⟨"key", ""⟩ _ _ _ _ true 300).2.2
      (by decide) (Or.inr rfl) (by decide)

/-- **C5.**  Synchronous wait mode: with a configured key, a valid
format, a successful submission carrying a truthy job id, and
`wait_for_completion`, `handle_transcription_job` runs the poll loop
(default ceiling 300 seconds); the loop polls exactly at times
`0, 10, 20, …` below the `max_wait_time` ceiling; if every in-window
status is non-terminal it raises the timeout `RevAiError`; at the first
`failed` status it raises a `RevAiError` carrying the provider's failure
detail; at the first `completed` status it fetches and returns the
transcript. -/
theorem C5_sync_wait_spec (cfg : Config) (P : Provider)
    (u e q jid : String) (jd : JobJson) (mw : Nat)
    (hkey : cfg.apiKey ≠ "")
    (hfmt : (validate_media_format u).1 = true)
    (hsub : P.submit ⟨u, e, q,
      (if cfg.callbackUrl ≠ "" then some (cfg.callbackUrl, "POST")
       else none)⟩ = .ok jd)
    (hid : jd.id = some jid) (hjid : jid ≠ "") :
    (handle_transcription_job cfg P u e q true =
      handle_transcription_job cfg P u e q true 300)
  ∧ handle_transcription_job cfg P u e q true mw = (pollLoop P jid mw 0).1
  ∧ ((∀ m, 10 * m < mw → ∃ st, P.jobStatus m = .ok st ∧
        st.status ≠ some "completed" ∧ st.status ≠ some "failed") →
      pollLoop P jid mw 0 =
        (.error (.revAiError ("Transcription job " ++ jid ++
          " did not complete within " ++ toString mw ++ " seconds")),
          (List.range' 0 (npolls mw)).map (fun i => 10 * i)))
  ∧ (∀ k₀ st tr, 10 * k₀ < mw →
      (∀ m, m < k₀ → ∃ s2, P.jobStatus m = .ok s2 ∧
        s2.status ≠ some "completed" ∧ s2.status ≠ some "failed") →
      P.jobStatus k₀ = .ok st → st.status = some "completed" →
      P.transcript = .ok tr →
      pollLoop P jid mw 0 =
        (.ok (.completed jid tr),
          (List.range' 0 (k₀ + 1)).map (fun i => 10 * i)))
  ∧ (∀ k₀ st, 10 * k₀ < mw →
      (∀ m, m < k₀ → ∃ s2, P.jobStatus m = .ok s2 ∧
        s2.status ≠ some "completed" ∧ s2.status ≠ some "failed") →
      P.jobStatus k₀ = .ok st → st.status = some "failed" →
      pollLoop P jid mw 0 =
        (.error (.revAiError ("Transcription job " ++ jid ++ " failed: " ++
          pyShowOpt st.failure_detail)),
          (List.range' 0 (k₀ + 1)).map (fun i => 10 * i))) := by
  refine ⟨rfl, ?_, ?_, ?_, ?_⟩
  · simp only [handle_transcription_job]
    rw [if_neg hkey, if_neg (by simp), if_neg (by simp [hfmt]), hsub]
    simp [hid, hjid]
  · intro hP
    exact pollLoop_timeout P jid mw hP (npolls mw) 0 rfl
  · intro k₀ st tr h10 hpend hst hc htr
    rw [pollLoop_advance P jid mw k₀ h10 hpend k₀ 0 rfl (by omega),
      pollLoop_completed_at P jid mw k₀ st tr h10 hst hc htr]
    simp [List.range'_concat]
  · intro k₀ st h10 hpend hst hc
    rw [pollLoop_advance P jid mw k₀ h10 hpend k₀ 0 rfl (by omega),
      pollLoop_failed_at P jid mw k₀ st h10 hst hc]
    simp [List.range'_concat]

/-- Witness for C5 with three concrete providers and a 30-second ceiling:
a persistently in-progress job times out after polls at 0, 10 and 20
seconds; a job failing at the second poll raises the failure detail; a
job completing at the second poll returns the fetched transcript. -/
theorem C5_sync_wait_spec_witness :
    pollLoop
        ⟨fun _ => .ok ⟨some "j", some "in_progress", none, none⟩,
          fun _ => .ok ⟨some "j", some "in_progress", none, none⟩,
          .ok ⟨none⟩, fun _ => ⟨"unknown", none⟩⟩ "j" 30 0 =
      (.error (.revAiError
        "Transcription job j did not complete within 30 seconds"),
        [0, 10, 20])
  ∧ pollLoop
        ⟨fun _ => .ok ⟨some "j", some "in_progress", none, none⟩,
          fun k => if k = 0
            then .ok ⟨some "j", some "in_progress", none, none⟩
            else .ok ⟨some "j", some "failed", none, some "bad audio"⟩,
          .ok ⟨none⟩, fun _ => ⟨"unknown", none⟩⟩ "j" 30 0 =
      (.error (.revAiError "Transcription job j failed: bad audio"),
        [0, 10])
  ∧ pollLoop
        ⟨fun _ => .ok ⟨some "j", some "in_progress", none, none⟩,
          fun k => if k = 0
            then .ok ⟨some "j", some "in_progress", none, none⟩
            else .ok ⟨some "j", some "completed", none, none⟩,
          .ok ⟨some []⟩, fun _ => ⟨"unknown", none⟩⟩ "j" 30 0 =
      (.ok (.completed "j" ⟨some []⟩), [0, 10]) := by
  refine ⟨?_, ?_, ?_⟩
  · have h := (C5_sync_wait_spec ⟨"key", "cb"⟩
      ⟨fun _ => .ok ⟨some "j", some "in_progress", none, none⟩,
        fun _ => .ok ⟨some "j", some "in_progress", none, none⟩,
        .ok ⟨none⟩, fun _ => ⟨"unknown", none⟩⟩
      "https://example.com/a.mp3" "e" "q" "j"
      ⟨some "j", some "in_progress", none, none⟩ 30
      (by decide) (by decide) rfl rfl (by decide)).2.2.1
      (fun m _ => ⟨⟨some "j", some "in_progress", none, none⟩, rfl,
        by decide, by decide⟩)
    rw [h]; decide
  · have h := (C5_sync_wait_spec ⟨"key", "cb"⟩
      ⟨fun _ => .ok ⟨some "j", some "in_progress", none, none⟩,
        fun k => if k = 0
          then .ok ⟨some "j", some "in_progress", none, none⟩
          else .ok ⟨some "j", some "failed", none, some "bad audio"⟩,
        .ok ⟨none⟩, fun _ => ⟨"unknown", none⟩⟩
      "https://example.com/a.mp3" "e" "q" "j"
      ⟨some "j", some "in_progress", none, none⟩ 30
      (by decide) (by decide) rfl rfl (by decide)).2.2.2.2 1
      ⟨some "j", some "failed", none, some "bad audio"⟩
      (by omega)
      (fun m hm => ⟨⟨some "j", some "in_progress", none, none⟩,
        by interval_cases m; rfl, by decide, by decide⟩)
      (by decide) rfl
    rw [h]; decide
  · have h := (C5_sync_wait_spec ⟨"key", "cb"⟩
      ⟨fun _ => .ok ⟨some "j", some "in_progress", none, none⟩,
        fun k => if k = 0
          then .ok ⟨some "j", some "in_progress", none, none⟩
          else .ok ⟨some "j", some "completed", none, none⟩,
        .ok ⟨some []⟩, fun _ => ⟨"unknown", none⟩⟩
      "https://example.com/a.mp3" "e" "q" "j"
      ⟨some "j", some "in_progress", none, none⟩ 30
      (by decide) (by decide) rfl rfl (by decide)).2.2.2.1 1
      ⟨some "j", some "completed", none, none⟩ ⟨some []⟩
      (by omega)
      (fun m hm => ⟨⟨some "j", some "in_progress", none, none⟩,
        by interval_cases m; rfl, by decide, by decide⟩)
      (by decide) rfl rfl
    rw [h]; decide

/-! Claim C9: `update_transcript`. -/

lemma scanEmail_first (email : String) :
    ∀ (pre : List (List String)) (row : List String)
      (post : List (List String)) (i : Nat),
      (∀ r ∈ pre, r.head? ≠ some email) → row.head? = some email →
      scanEmail email (pre ++ row :: post) i = some (pre.length + i + 1) := by
  intro pre
  induction pre with
  | nil =>
    intro row post i _ hrow
    simp [scanEmail, hrow]
  | cons r rest ih =>
    intro row post i hpre hrow
    have hr : r.head? ≠ some email := hpre r (List.mem_cons_self ..)
    rw [List.cons_append]
    rw [show scanEmail email (r :: (rest ++ row :: post)) i =
        scanEmail email (rest ++ row :: post) (i + 1) from by
      simp [scanEmail, hr]]
    rw [ih row post (i + 1) (fun x hx => hpre x (List.mem_cons_of_mem _ hx))
      hrow]
    simp only [List.length_cons]
    congr 1
    omega

/-- **C9 counterexample.**  The claim says `update_transcript` returns
`false` on any transport error.  But a transport failure of the
email-column read is swallowed by `find_email_row` (it returns `None`,
`sheets.py` lines 51-53), so the update proceeds on the append path and
returns `true` — here writing to row 3 even though nothing is known about
where (or whether) the email already occurs. -/
theorem C9_transport_error_counterexample :
    update_transcript
        ⟨.ok (), .error "email column read failed", .ok [["r1"], ["r2"]],
          fun _ _ _ => .ok ()⟩
        "x@y.z" "Staying Connected" "URL" "TEXT" none
      = (true, [⟨15, 3, "URL"⟩, ⟨16, 3, "TEXT"⟩]) := by
  decide

/-- **C9 (amended).**  `update_transcript` never throws (it is a total
function into `Bool × List Write`).  It returns `false` (writing nothing
further) when the service fails to initialize, when the row resolution
fails (email absent AND the `A:A` read fails), when the question has no
configured column mapping, or when either cell write fails.  When the
writes succeed it writes the media URL and the footered transcript to the
resolved row and returns `true`; the resolved row is the first email
match of the linear scan, or the next free row (`len(A:A)+1`) when the
email is absent — and ALSO when the email-column read fails with a
transport error, which is swallowed and treated as "email absent". -/
theorem C9_update_transcript_amended :
    (∀ (S : SheetsSvc) (email q mu t : String) (qm : Option QMeta)
      (m : String), S.init = .error m →
      update_transcript S email q mu t qm = (false, []))
  ∧ (∀ (S : SheetsSvc) (email q mu t : String) (qm : Option QMeta)
      (m : String), S.init = .ok () → resolveRow S email = .error m →
      update_transcript S email q mu t qm = (false, []))
  ∧ (∀ (S : SheetsSvc) (email q mu t : String) (qm : Option QMeta)
      (r : Nat), S.init = .ok () → resolveRow S email = .ok r →
      QUESTION_COLUMN_MAP q = none →
      update_transcript S email q mu t qm = (false, []))
  ∧ (∀ (S : SheetsSvc) (email q mu t : String) (qm : Option QMeta)
      (r c1 c2 : Nat) (m : String), S.init = .ok () →
      resolveRow S email = .ok r → QUESTION_COLUMN_MAP q = some (c1, c2) →
      S.writeCell c1 r mu = .error m →
      update_transcript S email q mu t qm = (false, []))
  ∧ (∀ (S : SheetsSvc) (email q mu t : String) (qm : Option QMeta)
      (r c1 c2 : Nat) (m : String), S.init = .ok () →
      resolveRow S email = .ok r → QUESTION_COLUMN_MAP q = some (c1, c2) →
      S.writeCell c1 r mu = .ok () →
      S.writeCell c2 r (pyStrip (t ++ "\n" ++ quality_note qm)) = .error m →
      update_transcript S email q mu t qm = (false, [⟨c1, r, mu⟩]))
  ∧ (∀ (S : SheetsSvc) (email q mu t : String) (qm : Option QMeta)
      (r c1 c2 : Nat), S.init = .ok () →
      resolveRow S email = .ok r → QUESTION_COLUMN_MAP q = some (c1, c2) →
      S.writeCell c1 r mu = .ok () →
      S.writeCell c2 r (pyStrip (t ++ "\n" ++ quality_note qm)) = .ok () →
      update_transcript S email q mu t qm =
        (true, [⟨c1, r, mu⟩,
          ⟨c2, r, pyStrip (t ++ "\n" ++ quality_note qm)⟩]))
  ∧ (∀ (S : SheetsSvc) (email : String) (pre : List (List String))
      (row : List String) (post : List (List String)),
      S.readEmailCol = .ok (pre ++ row :: post) →
      (∀ x ∈ pre, x.head? ≠ some email) → row.head? = some email →
      resolveRow S email = .ok (pre.length + 1))
  ∧ (∀ (S : SheetsSvc) (email : String) (rows avs : List (List String)),
      S.readEmailCol = .ok rows → scanEmail email rows 0 = none →
      S.readColA = .ok avs → resolveRow S email = .ok (avs.length + 1))
  ∧ (∀ (S : SheetsSvc) (email m : String) (avs : List (List String)),
      S.readEmailCol = .error m → S.readColA = .ok avs →
      resolveRow S email = .ok (avs.length + 1)) := by
  refine ⟨?_, ?_, ?_, ?_, ?_, ?_, ?_, ?_, ?_⟩
  · intro S email q mu t qm m h
    simp [update_transcript, h]
  · intro S email q mu t qm m h1 h2
    simp [update_transcript, h1, h2]
  · intro S email q mu t qm r h1 h2 h3
    simp [update_transcript, h1, h2, h3]
  · intro S email q mu t qm r c1 c2 m h1 h2 h3 h4
    simp [update_transcript, h1, h2, h3, h4]
  · intro S email q mu t qm r c1 c2 m h1 h2 h3 h4 h5
    simp [update_transcript, h1, h2, h3, h4, h5]
  · intro S email q mu t qm r c1 c2 h1 h2 h3 h4 h5
    simp [update_transcript, h1, h2, h3, h4, h5]
  · intro S email pre row post hE hpre hrow
    have h := scanEmail_first email pre row post 0 hpre hrow
    simp only [resolveRow, find_email_row, hE, h]
  · intro S email rows avs hE hscan hA
    simp [resolveRow, find_email_row, hE, hscan, hA, Except.map]
  · intro S email m avs hE hA
    simp [resolveRow, find_email_row, hE, hA, Except.map]

/-- Witness for the amended C9: a concrete service where the email is in
row 2 (success path writes columns 15/16 of row 2), a missing mapping
returns false, an absent email appends at `len(A:A)+1`, and a failing
email-column read also appends. -/
theorem C9_update_transcript_amended_witness :
    update_transcript
        ⟨.ok (), .ok [["zz"], ["x@y.z"]], .ok [["r1"], ["r2"], ["r3"]],
          fun _ _ _ => .ok ()⟩
        "x@y.z" "Staying Connected" "URL" "TEXT" none
      = (true, [⟨15, 2, "URL"⟩, ⟨16, 2, "TEXT"⟩])
  ∧ update_transcript
        ⟨.ok (), .ok [["zz"], ["x@y.z"]], .ok [["r1"], ["r2"], ["r3"]],
          fun _ _ _ => .ok ()⟩
        "x@y.z" "Unmapped Question" "URL" "TEXT" none = (false, [])
  ∧ resolveRow
        ⟨.ok (), .ok [["zz"]], .ok [["r1"], ["r2"], ["r3"]],
          fun _ _ _ => .ok ()⟩ "x@y.z" = .ok 4
  ∧ resolveRow
        ⟨.ok (), .error "down", .ok [["r1"], ["r2"], ["r3"]],
          fun _ _ _ => .ok ()⟩ "x@y.z" = .ok 4 := by
  refine ⟨?_, ?_, ?_, ?_⟩
  · have h := C9_update_transcript_amended.2.2.2.2.2.1
      ⟨.ok (), .ok [["zz"], ["x@y.z"]], .ok [["r1"], ["r2"], ["r3"]],
        fun _ _ _ => .ok ()⟩
      "x@y.z" "Staying Connected" "URL" "TEXT" none 2 15 16
      rfl (by decide) rfl rfl rfl
    rw [h]
    decide
  · exact C9_update_transcript_amended.2.2.1
      ⟨.ok (), .ok [["zz"], ["x@y.z"]], .ok [["r1"], ["r2"], ["r3"]],
        fun _ _ _ => .ok ()⟩
      "x@y.z" "Unmapped Question" "URL" "TEXT" none 2
      rfl (by decide) (by decide)
  · exact C9_update_transcript_amended.2.2.2.2.2.2.2.1
      ⟨.ok (), .ok [["zz"]], .ok [["r1"], ["r2"], ["r3"]],
        fun _ _ _ => .ok ()⟩
      "x@y.z" [["zz"]] [["r1"], ["r2"], ["r3"]] rfl (by decide) rfl
  · exact C9_update_transcript_amended.2.2.2.2.2.2.2.2
      ⟨.ok (), .error "down", .ok [["r1"], ["r2"], ["r3"]],
        fun _ _ _ => .ok ()⟩
      "x@y.z" "down" [["r1"], ["r2"], ["r3"]] rfl rfl

/-! Claim C3: retry-with-backoff on the webhook path. -/

/-- **C3 counterexample.**  The claim says retry-with-backoff is applied
around the submit call only, with waits of 1 s, 2 s and 4 s, and re-raises
after the final attempt.  In the code the decorator wraps all of
`process_media_answer`, whose body catches every exception (including the
`TypeError` raised by the submit call itself) and returns an error
dictionary: the wrapped call succeeds on the FIRST attempt with no retry
and no waits.  And when the body does raise on every attempt, the waits
are 1 s and 2 s — a 4-second wait never happens with 3 attempts. -/
theorem C3_retry_counterexample :
    process_media_answer
        ⟨some "https://example.com/a.mp3", some "q1", some "a1", some "s1",
          some "audio"⟩
        ⟨some "t@e.st", some "Tess"⟩ [] "int1"
      = (.ok (.errorResult ("Unexpected error: " ++ TYPE_ERROR_MSG)
          "https://example.com/a.mp3"), [])
  ∧ retry_with_backoff 3 1
        (fun _ => (.error (.revAiError "transient")
          : Except PyErr AnswerOutcome))
      = (.error (.revAiError "transient"), [1, 2]) := by
  exact ⟨rfl, rfl⟩

/-- **C3 (amended).**  On the webhook path `retry_with_backoff(retries=3,
backoff=1)` wraps the WHOLE per-answer handler, not the submit call; when
the body returns (as it does whenever `media_url` is present, because
every exception inside the `try` — including the `TypeError` from the
mis-called submit — is caught into an error dictionary) there is no
retry; a body that raises on every attempt is tried 3 times with waits of
1 s and 2 s and the final exception is re-raised; only exceptions raised
before the `try` block (a missing `media_url` key) are retried this
way. -/
theorem C3_retry_amended :
    (∀ (answer : Answer) (contact : Contact) (qs : List Question)
      (iid : String),
      process_media_answer answer contact qs iid =
        retry_with_backoff 3 1
          (fun _ => process_media_answer_body answer contact qs iid))
  ∧ (∀ (α : Type) (f : Nat → Except PyErr α) (a : α), f 0 = .ok a →
      retry_with_backoff 3 1 f = (.ok a, []))
  ∧ (∀ (α : Type) (f : Nat → Except PyErr α) (e : PyErr),
      (∀ i, f i = .error e) →
      retry_with_backoff 3 1 f = (.error e, [1, 2]))
  ∧ (∀ (answer : Answer) (contact : Contact) (qs : List Question)
      (iid mu : String), answer.media_url = some mu →
      process_media_answer_body answer contact qs iid =
        .ok (.errorResult ("Unexpected error: " ++ TYPE_ERROR_MSG) mu))
  ∧ (∀ (answer : Answer) (contact : Contact) (qs : List Question)
      (iid : String), answer.media_url = none →
      process_media_answer answer contact qs iid =
        (.error (.keyError "media_url"), [1, 2])) := by
  refine ⟨fun _ _ _ _ => rfl, ?_, ?_, ?_, ?_⟩
  · intro α f a h
    simp [retry_with_backoff, retryAux, h]
  · intro α f e h
    norm_num [retry_with_backoff, retryAux, h 0, h 1, h 2]
  · intro answer contact qs iid mu h
    simp [process_media_answer_body, h]
  · intro answer contact qs iid h
    have hb : process_media_answer_body answer contact qs iid =
        .error (.keyError "media_url") := by
      simp [process_media_answer_body, h]
    norm_num [process_media_answer, retry_with_backoff, retryAux, hb]

/-- Witness for the amended C3: a missing `media_url` is retried with
waits 1 s and 2 s and re-raised; a persistently raising body waits 1 s
and 2 s; a present `media_url` yields the caught-TypeError error
dictionary. -/
theorem C3_retry_amended_witness :
    process_media_answer ⟨none, none, none, none, none⟩ ⟨none, none⟩ []
        "int1" = (.error (.keyError "media_url"), [1, 2])
  ∧ retry_with_backoff 3 1
        (fun _ => (.error (.revAiError "boom") : Except PyErr Nat)) =
      (.error (.revAiError "boom"), [1, 2])
  ∧ process_media_answer_body ⟨some "u", none, none, none, none⟩
        ⟨none, none⟩ [] "int1" =
      .ok (.errorResult ("Unexpected error: " ++ TYPE_ERROR_MSG) "u") := by
  refine ⟨?_, ?_, ?_⟩
  · exact C3_retry_amended.2.2.2.2 _ ⟨none, none⟩ [] "int1" rfl
  · exact C3_retry_amended.2.2.1 Nat _ _ (fun _ => rfl)
  · exact C3_retry_amended.2.2.2.1 _ ⟨none, none⟩ [] "int1" "u" rfl

/-! Claim C10: the first element of the first monologue. -/

lemma storeFromTranscript_some (P : Provider) (N : Nlp) (text : String)
    (em qn mu : Option String) (sa : StoreArgs)
    (h : storeFromTranscript P N text em qn mu = .ok (some sa)) :
    ∃ a, get_transcript_analysis N text = .ok a ∧
      sa = ⟨em, qn, mu, a.enhanced_text⟩ := by
  by_cases ht : text = ""
  · cases hq : get_transcript_quality (P.jobStatus 0) P.mq P.transcript with
    | error e => simp [storeFromTranscript, process_transcript, hq] at h
    | ok qr => simp [storeFromTranscript, process_transcript, hq, ht] at h
  · cases hq : get_transcript_quality (P.jobStatus 0) P.mq P.transcript with
    | error e => simp [storeFromTranscript, process_transcript, hq] at h
    | ok qr =>
      cases ha : get_transcript_analysis N text with
      | error e =>
        simp [storeFromTranscript, process_transcript, hq, ha, ht] at h
      | ok a =>
        simp [storeFromTranscript, process_transcript, hq, ha, ht] at h
        exact ⟨a, rfl, h.symm⟩

/-- **C10.**  On every completed-transcript path the text that is
analyzed, enhanced and stored (or returned) is solely the value of the
FIRST element of the FIRST monologue: the extraction expression ignores
all later elements (`etail`) and monologues (`mtail`), which appear
nowhere in the conclusions.  Paths: the Rev.ai callback, the inline
completion slice of the webhook form-response path, the manual
transcribe route, and the manual status check (which returns without
storing). -/
theorem C10_first_element_only :
    (∀ (e0 : Element) (etail : List Element) (mtail : List Monologue),
      extract_transcript_text ⟨some (⟨some (e0 :: etail)⟩ :: mtail)⟩ =
        .ok (e0.value.getD ""))
  ∧ (∀ (P : Provider) (N : Nlp) (jid : String) (md : Meta)
      (fd : Option String) (e0 : Element) (etail : List Element)
      (mtail : List Monologue) (sa : StoreArgs),
      jid ≠ "" →
      P.transcript = .ok ⟨some (⟨some (e0 :: etail)⟩ :: mtail)⟩ →
      (handle_rev_ai_callback P N
        ⟨some ⟨some jid, some "completed", some md, fd⟩⟩).stored =
          some sa →
      ∃ a, get_transcript_analysis N (e0.value.getD "") = .ok a ∧
        sa.transcript = a.enhanced_text)
  ∧ (∀ (P : Provider) (N : Nlp) (em : Option String) (qt mu jid : String)
      (e0 : Element) (etail : List Element) (mtail : List Monologue)
      (sa : StoreArgs),
      process_media_answer_completion P N
        ⟨some "completed", some ⟨some (⟨some (e0 :: etail)⟩ :: mtail)⟩,
          some jid⟩ em qt mu = .ok (some sa) →
      ∃ a, get_transcript_analysis N (e0.value.getD "") = .ok a ∧
        sa.transcript = a.enhanced_text)
  ∧ (∀ (cfg : Config) (P : Provider) (N : Nlp) (d : ManualReq)
      (jid : String) (e0 : Element) (etail : List Element)
      (mtail : List Monologue) (sa : StoreArgs),
      handle_transcription_job cfg P (d.media_url.getD "")
          (d.email.getD "") (d.question.getD "Manual request")
          (d.wait_for_completion.getD false) (d.max_wait_time.getD 300) =
        .ok (.completed jid ⟨some (⟨some (e0 :: etail)⟩ :: mtail)⟩) →
      (request_transcription cfg P N d).2 = some sa →
      ∃ a, get_transcript_analysis N (e0.value.getD "") = .ok a ∧
        sa.transcript = a.enhanced_text ∧
        (request_transcription cfg P N d).1 =
          .completedOut jid a.enhanced_text)
  ∧ (∀ (P : Provider) (N : Nlp) (st : JobJson) (qr : QualityResult)
      (a : AnalysisOut) (e0 : Element) (etail : List Element)
      (mtail : List Monologue),
      P.jobStatus 0 = .ok st → st.status = some "completed" →
      P.transcript = .ok ⟨some (⟨some (e0 :: etail)⟩ :: mtail)⟩ →
      e0.value.getD "" ≠ "" →
      get_transcript_quality (P.jobStatus 0) P.mq P.transcript = .ok qr →
      get_transcript_analysis N (e0.value.getD "") = .ok a →
      check_status P N = .completedOut a.enhanced_text) := by
  refine ⟨fun _ _ _ => rfl, ?_, ?_, ?_, ?_⟩
  · intro P N jid md fd e0 etail mtail sa hjid htr hst
    have hcb : handle_webhook_callback P
        ⟨some ⟨some jid, some "completed", some md, fd⟩⟩ =
        .ok ⟨jid, some "completed",
          some ⟨some (⟨some (e0 :: etail)⟩ :: mtail)⟩, some md⟩ := by
      simp [handle_webhook_callback, get_transcript, Except.mapError, htr,
        hjid]
    simp only [handle_rev_ai_callback, handle_rev_ai_callback_core, hcb,
      extract_transcript_text] at hst
    simp at hst
    cases hsf : storeFromTranscript P N (e0.value.getD "") md.email
        md.question md.media_url with
    | error e => rw [hsf] at hst; simp at hst
    | ok st =>
      rw [hsf] at hst
      simp at hst
      rw [hst] at hsf
      obtain ⟨a, ha, hsa⟩ := storeFromTranscript_some _ _ _ _ _ _ _ hsf
      exact ⟨a, ha, by rw [hsa]⟩
  · intro P N em qt mu jid e0 etail mtail sa h
    simp only [process_media_answer_completion,
      extract_transcript_text] at h
    obtain ⟨a, ha, hsa⟩ := storeFromTranscript_some _ _ _ _ _ _ _ h
    exact ⟨a, ha, by rw [hsa]⟩
  · intro cfg P N d jid e0 etail mtail sa hjob hsa
    cases hv : validate_request d with
    | some err => simp [request_transcription, hv] at hsa
    | none =>
      by_cases ht : e0.value.getD "" = ""
      · simp [request_transcription, hv, hjob, extract_transcript_text,
          ht] at hsa
      · cases hq : get_transcript_quality (P.jobStatus 0) P.mq
            P.transcript with
        | error e =>
          simp [request_transcription, hv, hjob, extract_transcript_text,
            ht, hq] at hsa
        | ok qr =>
          cases ha : get_transcript_analysis N (e0.value.getD "") with
          | error e =>
            simp [request_transcription, hv, hjob,
              extract_transcript_text, ht, hq, ha] at hsa
          | ok a =>
            have hR : request_transcription cfg P N d =
                (.completedOut jid a.enhanced_text,
                  some ⟨some (d.email.getD ""),
                    some (d.question.getD "Manual request"),
                    some (d.media_url.getD ""), a.enhanced_text⟩) := by
              simp [request_transcription, hv, hjob,
                extract_transcript_text, ht, hq, ha]
            rw [hR] at hsa
            simp at hsa
            refine ⟨a, rfl, ?_, by rw [hR]⟩
            rw [← hsa]
  · intro P N st qr a e0 etail mtail hst hc htr htext hq ha
    rw [hst, htr] at hq
    simp [check_status, check_job_status, Except.mapError, hst, hc,
      get_transcript, htr, extract_transcript_text, htext, hq, ha]

/-- Witness for C10 on all four paths, with the single-element transcript
`{"monologues": [{"elements": [{"type": "text", "value": "Hello.",
"confidence": 0.95, "ts": 1}]}]}`: the stored (or returned) transcript is
the enhanced first-element text `"Hello."`. -/
theorem C10_first_element_only_witness :
    (handle_rev_ai_callback
        ⟨fun _ => .error "unused",
          fun _ => .ok ⟨some "j", some "completed", none, none⟩,
          .ok ⟨some [⟨some [⟨some "text", some "Hello.", some 0.95,
            some 1⟩]⟩]⟩, fun _ => ⟨"unknown", none⟩⟩
        ⟨fun s => if s = "" then [] else [⟨0, s⟩], fun _ => ⟨1, 10, 10, []⟩⟩
        ⟨some ⟨some "j", some "completed",
          some ⟨some "e@x.com", some "Q", some "u"⟩, none⟩⟩).stored =
      some ⟨some "e@x.com", some "Q", some "u", "Hello."⟩
  ∧ (∃ a, get_transcript_analysis
        ⟨fun s => if s = "" then [] else [⟨0, s⟩], fun _ => ⟨1, 10, 10, []⟩⟩
        "Hello." = .ok a ∧ ("Hello." : String) = a.enhanced_text)
  ∧ (∃ a, get_transcript_analysis
        ⟨fun s => if s = "" then [] else [⟨0, s⟩], fun _ => ⟨1, 10, 10, []⟩⟩
        "Hello." = .ok a ∧
        process_media_answer_completion
          ⟨fun _ => .error "unused",
            fun _ => .ok ⟨some "j", some "completed", none, none⟩,
            .ok ⟨some [⟨some [⟨some "text", some "Hello.", some 0.95,
              some 1⟩]⟩]⟩, fun _ => ⟨"unknown", none⟩⟩
          ⟨fun s => if s = "" then [] else [⟨0, s⟩],
            fun _ => ⟨1, 10, 10, []⟩⟩
          ⟨some "completed", some ⟨some [⟨some [⟨some "text", some "Hello.",
            some 0.95, some 1⟩]⟩]⟩, some "j"⟩
          (some "e@x.com") "Q" "u" =
        .ok (some ⟨some "e@x.com", some "Q", some "u", a.enhanced_text⟩))
  ∧ (request_transcription ⟨"key", "cb"⟩
        ⟨fun _ => .ok ⟨some "j", some "in_progress", none, none⟩,
          fun _ => .ok ⟨some "j", some "completed", none, none⟩,
          .ok ⟨some [⟨some [⟨some "text", some "Hello.", some 0.95,
            some 1⟩]⟩]⟩, fun _ => ⟨"unknown", none⟩⟩
        ⟨fun s => if s = "" then [] else [⟨0, s⟩], fun _ => ⟨1, 10, 10, []⟩⟩
        ⟨some "https://example.com/a.mp3", some "e@x.com", some "Q",
          some true, some 30⟩).1 = .completedOut "j" "Hello."
  ∧ check_status
      ⟨fun _ => .ok ⟨some "j", some "in_progress", none, none⟩,
        fun _ => .ok ⟨some "j", some "completed", none, none⟩,
        .ok ⟨some [⟨some [⟨some "text", some "Hello.", some 0.95,
          some 1⟩]⟩]⟩, fun _ => ⟨"unknown", none⟩⟩
      ⟨fun s => if s = "" then [] else [⟨0, s⟩], fun _ => ⟨1, 10, 10, []⟩⟩ =
      .completedOut "Hello." := by
  have hne : ("Hello." : String) ≠ "" := by decide
  have ha : get_transcript_analysis
      ⟨fun s => if s = "" then [] else [⟨0, s⟩], fun _ => ⟨1, 10, 10, []⟩⟩
      "Hello." =
      .ok ⟨"Hello.", "Hello.", [], ⟨1, 10, 10, []⟩,
        calculate_quality_score ⟨1, 10, 10, []⟩⟩ := rfl
  have hq : get_transcript_quality
      (Except.ok ⟨some "j", some "completed", none, none⟩)
      (fun _ => ⟨"unknown", none⟩)
      (Except.ok ⟨some [⟨some [⟨some "text", some "Hello.", some 0.95,
        some 1⟩]⟩]⟩) =
      .ok (.completed ⟨0.95, 1, 0, [], "good", []⟩) := by
    norm_num [get_transcript_quality, qualityStep, mediaQualityOf,
      List.foldlM_nil, List.foldlM_cons, Except.instMonad, Except.bind,
      Except.pure]
  have hsf : ∀ em qn mu, storeFromTranscript
      ⟨fun _ => .error "unused",
        fun _ => .ok ⟨some "j", some "completed", none, none⟩,
        .ok ⟨some [⟨some [⟨some "text", some "Hello.", some 0.95,
          some 1⟩]⟩]⟩, fun _ => ⟨"unknown", none⟩⟩
      ⟨fun s => if s = "" then [] else [⟨0, s⟩], fun _ => ⟨1, 10, 10, []⟩⟩
      "Hello." em qn mu = .ok (some ⟨em, qn, mu, "Hello."⟩) := by
    intro em qn mu
    simp [storeFromTranscript, process_transcript, hq, ha, hne]
  have hcb : handle_webhook_callback
      ⟨fun _ => .error "unused",
        fun _ => .ok ⟨some "j", some "completed", none, none⟩,
        .ok ⟨some [⟨some [⟨some "text", some "Hello.", some 0.95,
          some 1⟩]⟩]⟩, fun _ => ⟨"unknown", none⟩⟩
      ⟨some ⟨some "j", some "completed",
        some ⟨some "e@x.com", some "Q", some "u"⟩, none⟩⟩ =
      .ok ⟨"j", some "completed",
        some ⟨some [⟨some [⟨some "text", some "Hello.", some 0.95,
          some 1⟩]⟩]⟩, some ⟨some "e@x.com", some "Q", some "u"⟩⟩ := rfl
  have hst : (handle_rev_ai_callback
      ⟨fun _ => .error "unused",
        fun _ => .ok ⟨some "j", some "completed", none, none⟩,
        .ok ⟨some [⟨some [⟨some "text", some "Hello.", some 0.95,
          some 1⟩]⟩]⟩, fun _ => ⟨"unknown", none⟩⟩
      ⟨fun s => if s = "" then [] else [⟨0, s⟩], fun _ => ⟨1, 10, 10, []⟩⟩
      ⟨some ⟨some "j", some "completed",
        some ⟨some "e@x.com", some "Q", some "u"⟩, none⟩⟩).stored =
      some ⟨some "e@x.com", some "Q", some "u", "Hello."⟩ := by
    simp [handle_rev_ai_callback, handle_rev_ai_callback_core, hcb,
      extract_transcript_text, hsf]
  have hval : validate_media_format "https://example.com/a.mp3" =
      (true, "File format is supported") := by decide
  have hpoll : (pollLoop
      ⟨fun _ => .ok ⟨some "j", some "in_progress", none, none⟩,
        fun _ => .ok ⟨some "j", some "completed", none, none⟩,
        .ok ⟨some [⟨some [⟨some "text", some "Hello.", some 0.95,
          some 1⟩]⟩]⟩, fun _ => ⟨"unknown", none⟩⟩ "j" 30 0).1 =
      .ok (.completed "j" ⟨some [⟨some [⟨some "text", some "Hello.",
        some 0.95, some 1⟩]⟩]⟩) := by
    rw [pollLoop_completed_at _ "j" 30 0
      ⟨some "j", some "completed", none, none⟩ _ (by omega) rfl rfl rfl]
  have hjob : handle_transcription_job ⟨"key", "cb"⟩
      ⟨fun _ => .ok ⟨some "j", some "in_progress", none, none⟩,
        fun _ => .ok ⟨some "j", some "completed", none, none⟩,
        .ok ⟨some [⟨some [⟨some "text", some "Hello.", some 0.95,
          some 1⟩]⟩]⟩, fun _ => ⟨"unknown", none⟩⟩
      "https://example.com/a.mp3" "e@x.com" "Q" true 30 =
      .ok (.completed "j" ⟨some [⟨some [⟨some "text", some "Hello.",
        some 0.95, some 1⟩]⟩]⟩) := by
    simp [handle_transcription_job, hval, hpoll]
  have hvr : validate_request ⟨some "https://example.com/a.mp3",
      some "e@x.com", some "Q", some true, some 30⟩ = none := by decide
  have hreq : request_transcription ⟨"key", "cb"⟩
      ⟨fun _ => .ok ⟨some "j", some "in_progress", none, none⟩,
        fun _ => .ok ⟨some "j", some "completed", none, none⟩,
        .ok ⟨some [⟨some [⟨some "text", some "Hello.", some 0.95,
          some 1⟩]⟩]⟩, fun _ => ⟨"unknown", none⟩⟩
      ⟨fun s => if s = "" then [] else [⟨0, s⟩], fun _ => ⟨1, 10, 10, []⟩⟩
      ⟨some "https://example.com/a.mp3", some "e@x.com", some "Q",
        some true, some 30⟩ =
      (.completedOut "j" "Hello.",
        some ⟨some "e@x.com", some "Q", some "https://example.com/a.mp3",
          "Hello."⟩) := by
    simp [request_transcription, hvr, hjob, extract_transcript_text, hq,
      ha, hne]
  refine ⟨hst, ?_, ?_, ?_, ?_⟩
  · obtain ⟨a, haa, hT⟩ := C10_first_element_only.2.1 _ _ "j"
      ⟨some "e@x.com", some "Q", some "u"⟩ none
      ⟨some "text", some "Hello.", some 0.95, some 1⟩ [] []
      ⟨some "e@x.com", some "Q", some "u", "Hello."⟩ (by decide) rfl hst
    exact ⟨a, haa, hT⟩
  · have hslice : process_media_answer_completion
        ⟨fun _ => .error "unused",
          fun _ => .ok ⟨some "j", some "completed", none, none⟩,
          .ok ⟨some [⟨some [⟨some "text", some "Hello.", some 0.95,
            some 1⟩]⟩]⟩, fun _ => ⟨"unknown", none⟩⟩
        ⟨fun s => if s = "" then [] else [⟨0, s⟩],
          fun _ => ⟨1, 10, 10, []⟩⟩
        ⟨some "completed", some ⟨some [⟨some [⟨some "text", some "Hello.",
          some 0.95, some 1⟩]⟩]⟩, some "j"⟩
        (some "e@x.com") "Q" "u" =
        .ok (some ⟨some "e@x.com", some "Q", some "u", "Hello."⟩) := by
      simp [process_media_answer_completion, extract_transcript_text, hsf]
    obtain ⟨a, haa, hT⟩ := C10_first_element_only.2.2.1 _ _
      (some "e@x.com") "Q" "u" "j"
      ⟨some "text", some "Hello.", some 0.95, some 1⟩ [] []
      ⟨some "e@x.com", some "Q", some "u", "Hello."⟩ hslice
    refine ⟨a, haa, ?_⟩
    rw [hslice, ← hT]
  · obtain ⟨a, haa, hT, hO⟩ := C10_first_element_only.2.2.2.1
      ⟨"key", "cb"⟩ _ _
      ⟨some "https://example.com/a.mp3", some "e@x.com", some "Q",
        some true, some 30⟩ "j"
      ⟨some "text", some "Hello.", some 0.95, some 1⟩ [] []
      ⟨some "e@x.com", some "Q", some "https://example.com/a.mp3",
        "Hello."⟩ hjob (by rw [hreq])
    rw [hO]
    have : a = ⟨"Hello.", "Hello.", [], ⟨1, 10, 10, []⟩,
        calculate_quality_score ⟨1, 10, 10, []⟩⟩ := by
      have h2 := haa.symm.trans ha
      simpa using h2
    rw [this]
  · exact C10_first_element_only.2.2.2.2 _ _
      ⟨some "j", some "completed", none, none⟩
      (.completed ⟨0.95, 1, 0, [], "good", []⟩)
      ⟨"Hello.", "Hello.", [], ⟨1, 10, 10, []⟩,
        calculate_quality_score ⟨1, 10, 10, []⟩⟩
      ⟨some "text", some "Hello.", some 0.95, some 1⟩ [] []
      rfl rfl rfl (by decide) hq ha

end VideoaskHandler
